import Mathlib

/-!
Verification of the Foxglove WebSocket server broker core
(python/src/foxglove_websocket/server/__init__.py and client_state.py).

The server object and each client session are embedded as pure data; the
per-connection serialized outbound write path (connection.send) is modelled
as an append-only outbox of frames on each client, and listener callbacks
are recorded as an emitted event list.  Exceptions are modelled with an
explicit Option PyExc result component, carrying the partially updated
state exactly as the Python code leaves it at the raise point.
-/

namespace FoxgloveWS

/-- Association-list lookup with Python dict semantics (first binding wins;
the code keeps keys unique). -/
def alookup {α : Type} : List (Nat × α) → Nat → Option α
  | [], _ => none
  | p :: rest, key => if p.1 = key then some p.2 else alookup rest key

/-- Python set.update on a list-as-set: add each element not already present. -/
def setUpdate (s : List String) (l : List String) : List String :=
  l.foldl (fun acc n => if n ∈ acc then acc else acc ++ [n]) s

/-- Python set difference s -= set(l): keep elements not in l. -/
def setDiff (s : List String) (l : List String) : List String :=
  s.filter (fun n => decide (n ∉ l))

/-- Little-endian 4-byte encoding, as produced by struct.pack with format I. -/
def u32le (n : Nat) : List Nat :=
  [n % 256, n / 256 % 256, n / 65536 % 256, n / 16777216 % 256]

/-- Little-endian 8-byte encoding, as produced by struct.pack with format Q. -/
def u64le (n : Nat) : List Nat :=
  [n % 256, n / 256 % 256, n / 65536 % 256, n / 16777216 % 256,
   n / 4294967296 % 256, n / 1099511627776 % 256,
   n / 281474976710656 % 256, n / 72057594037927936 % 256]

/-- Little-endian 4-byte read at an offset, as struct.unpack_from with format I
(callers validate the buffer length first, mirroring struct's own check). -/
def readU32 (bytes : List Nat) (offset : Nat) : Nat :=
  bytes.getD offset 0 + bytes.getD (offset + 1) 0 * 256 +
    bytes.getD (offset + 2) 0 * 65536 + bytes.getD (offset + 3) 0 * 16777216

/-- Parameter values (types.py Parameter.value union); float members of the
union are omitted from the model, no claim inspects values. -/
inductive PValue where
  | int (i : Int)
  | bool (b : Bool)
  | str (s : String)
  | intList (l : List Int)
  | boolList (l : List Bool)
  | strList (l : List String)
  deriving Repr, DecidableEq

/-- types.py Parameter. -/
structure Parameter where
  name : String
  value : PValue
  type : Option String
  deriving Repr, DecidableEq

/-- types.py ChannelWithoutId. -/
structure ChannelWithoutId where
  topic : String
  encoding : String
  schemaName : String
  schema : String
  schemaEncoding : Option String
  deriving Repr, DecidableEq

/-- types.py Channel (ChannelWithoutId plus the broker-assigned id). -/
structure Channel where
  id : Nat
  topic : String
  encoding : String
  schemaName : String
  schema : String
  schemaEncoding : Option String
  deriving Repr, DecidableEq

/-- types.py ClientChannel. -/
structure ClientChannel where
  id : Nat
  topic : String
  encoding : String
  schemaName : String
  schema : Option String
  schemaEncoding : Option String
  deriving Repr, DecidableEq

/-- types.py ServiceWithoutId; request and response definitions are kept
abstract as optional strings (presence is all add_service inspects). -/
structure ServiceWithoutId where
  name : String
  type : String
  request : Option String
  response : Option String
  requestSchema : Option String
  responseSchema : Option String
  deriving Repr, DecidableEq

/-- types.py Service. -/
structure Service where
  id : Nat
  name : String
  type : String
  request : Option String
  response : Option String
  requestSchema : Option String
  responseSchema : Option String
  deriving Repr, DecidableEq

/-- A frame on a connection's serialized outbound write path: one JSON
control message sent with _send_json, or one binary websocket frame.
Status levels use the StatusLevel IntEnum values (INFO 0, WARNING 1,
ERROR 2). -/
inductive Frame where
  | serverInfo (name : String) (capabilities : List String)
      (supportedEncodings : Option (List String)) (sessionId : Option String)
  | advertiseChannels (channels : List Channel)
  | unadvertiseChannels (channelIds : List Nat)
  | advertiseServices (services : List Service)
  | unadvertiseServices (serviceIds : List Nat)
  | status (level : Nat) (message : String)
  | parameterValues (parameters : List Parameter) (id : Option String)
  | binary (bytes : List Nat)
  deriving Repr, DecidableEq

/-- A recorded invocation of a FoxgloveServerListener notification callback. -/
inductive Callback where
  | onSubscribe (chanId : Nat)
  | onUnsubscribe (chanId : Nat)
  | onClientAdvertise (channel : ClientChannel)
  | onClientUnadvertise (chanId : Nat)
  | onClientMessage (chanId : Nat) (payload : List Nat)
  | onParametersSubscribe (names : List String) (subscribe : Bool)
  deriving Repr, DecidableEq

/-- A raised Python exception: class name and str(exc). -/
structure PyExc where
  kind : String
  msg : String
  deriving Repr, DecidableEq

/-- The value-returning listener callbacks (the ones whose results the server
consumes); each may raise.  The encoding argument of on_service_request is
passed as the raw bytes of the request's encoding field. -/
structure Listener where
  on_service_request : Nat → Nat → List Nat → List Nat → Except PyExc (List Nat)
  on_get_parameters : List String → Option String → Except PyExc (List Parameter)
  on_set_parameters : List Parameter → Option String → Except PyExc (List Parameter)

/-- client_state.py ClientState.  The connection handle is modelled by a
numeric connection identity connId plus the connection's serialized
outbound write path outbox (frames in wire order, oldest first). -/
structure ClientState where
  connId : Nat
  subscriptions : List (Nat × Nat)
  subscriptions_by_channel : List (Nat × Nat)
  advertisements_by_channel : List (Nat × ClientChannel)
  subscribed_params : List String
  outbox : List Frame
  deriving Repr, DecidableEq

/-- client_state.py ClientState.remove_channel. -/
def ClientState.remove_channel (c : ClientState) (removedChanId : Nat) : ClientState :=
  match alookup c.subscriptions_by_channel removedChanId with
  | none => c
  | some _ =>
      { c with
        subscriptions := c.subscriptions.filter (fun sc => decide (sc.2 ≠ removedChanId)),
        subscriptions_by_channel :=
          c.subscriptions_by_channel.filter (fun cs => decide (cs.1 ≠ removedChanId)) }

/-- client_state.py ClientState.add_subscription. -/
def ClientState.add_subscription (c : ClientState) (subId chanId : Nat) :
    Bool × ClientState :=
  if (alookup c.subscriptions_by_channel chanId).isSome then (false, c)
  else
    (true,
     { c with
       subscriptions := c.subscriptions ++ [(subId, chanId)],
       subscriptions_by_channel := c.subscriptions_by_channel ++ [(chanId, subId)] })

/-- client_state.py ClientState.remove_subscription. -/
def ClientState.remove_subscription (c : ClientState) (removedSubId : Nat) :
    Option Nat × ClientState :=
  match alookup c.subscriptions removedSubId with
  | none => (none, c)
  | some chanId =>
      (some chanId,
       { c with
         subscriptions := c.subscriptions.filter (fun sc => decide (sc.1 ≠ removedSubId)),
         subscriptions_by_channel :=
           c.subscriptions_by_channel.filter (fun cs => decide (cs.1 ≠ chanId)) })

/-- client_state.py ClientState.add_client_channel. -/
def ClientState.add_client_channel (c : ClientState) (channel : ClientChannel) :
    Bool × ClientState :=
  if (alookup c.advertisements_by_channel channel.id).isSome then (false, c)
  else
    (true,
     { c with
       advertisements_by_channel := c.advertisements_by_channel ++ [(channel.id, channel)] })

/-- client_state.py ClientState.remove_client_channel. -/
def ClientState.remove_client_channel (c : ClientState) (channelId : Nat) :
    Bool × ClientState :=
  if (alookup c.advertisements_by_channel channelId).isNone then (false, c)
  else
    (true,
     { c with
       advertisements_by_channel :=
         c.advertisements_by_channel.filter (fun p => decide (p.1 ≠ channelId)) })

/-- The FoxgloveServer object state: registered client sessions, channel and
service tables with their monotonic id counters, and the server-wide
subscribed-parameter set.  nextConnId models the freshness of connection
object identities. -/
structure ServerState where
  name : String
  capabilities : List String
  supported_encodings : Option (List String)
  session_id : Option String
  clients : List ClientState
  channels : List (Nat × Channel)
  nextChannelId : Nat
  services : List (Nat × Service)
  nextServiceId : Nat
  subscribed_params : List String
  nextConnId : Nat
  deriving Repr, DecidableEq

/-- FoxgloveServer._any_subscribed. -/
def any_subscribed (s : ServerState) (chanId : Nat) : Bool :=
  s.clients.any (fun c => (alookup c.subscriptions_by_channel chanId).isSome)

/-- Find the client session with the given connection identity. -/
def findClient (s : ServerState) (cid : Nat) : Option ClientState :=
  s.clients.find? (fun c => decide (c.connId = cid))

/-- Replace the client session with the given connection identity. -/
def replaceClient (s : ServerState) (cid : Nat) (c' : ClientState) : ServerState :=
  { s with clients := s.clients.map (fun c => if c.connId = cid then c' else c) }

/-- Apply a state update to the client session with the given identity. -/
def updateClient (s : ServerState) (cid : Nat) (f : ClientState → ClientState) :
    ServerState :=
  { s with clients := s.clients.map (fun c => if c.connId = cid then f c else c) }

/-- Enqueue a frame on one connection's serialized outbound write path
(a send on that connection). -/
def appendFrame (s : ServerState) (cid : Nat) (fr : Frame) : ServerState :=
  updateClient s cid (fun c => { c with outbox := c.outbox ++ [fr] })

/-- The remote address of a connection, rendered into status texts; modelled
from the connection identity. -/
def remoteAddress (cid : Nat) : String := toString cid

/-- FoxgloveServer.add_channel: allocate the next id, insert into the channel
table, advertise the single new channel to every registered client. -/
def ServerState.add_channel (s : ServerState) (spec : ChannelWithoutId) :
    ServerState × Nat :=
  let newId := s.nextChannelId
  let newChannel : Channel :=
    { id := newId, topic := spec.topic, encoding := spec.encoding,
      schemaName := spec.schemaName, schema := spec.schema,
      schemaEncoding := spec.schemaEncoding }
  let s₁ := { s with channels := s.channels ++ [(newId, newChannel)],
                     nextChannelId := newId + 1 }
  let newClients := s₁.clients.map (fun c =>
    { c with outbox := c.outbox ++ [Frame.advertiseChannels [newChannel]] })
  ({ s₁ with clients := newClients }, newId)

/-- FoxgloveServer.remove_channel: del on the table first (KeyError there
leaves everything untouched), then for every client silently drop the
channel's subscription entries and send an unadvertise for exactly that id.
No listener callback is ever invoked. -/
def ServerState.remove_channel (s : ServerState) (chanId : Nat) :
    ServerState × List Callback × Option PyExc :=
  if (alookup s.channels chanId).isNone then
    (s, [], some { kind := "KeyError", msg := toString chanId })
  else
    let s₁ := { s with channels := s.channels.filter (fun p => decide (p.1 ≠ chanId)) }
    ({ s₁ with clients := s₁.clients.map (fun c =>
        let c₁ := c.remove_channel chanId
        { c₁ with outbox := c₁.outbox ++ [Frame.unadvertiseChannels [chanId]] }) },
     [], none)

/-- FoxgloveServer.add_service: validate that a request and a response
definition are present, allocate the next id, insert, advertise to all. -/
def ServerState.add_service (s : ServerState) (spec : ServiceWithoutId) :
    ServerState × Option Nat × Option PyExc :=
  if spec.request.isNone ∧ spec.requestSchema.isNone then
    (s, none, some (PyExc.mk "ValueError"
      "Invalid service definition: Either 'request' or 'requestSchema' must be defined"))
  else if spec.response.isNone ∧ spec.responseSchema.isNone then
    (s, none, some (PyExc.mk "ValueError"
      "Invalid service definition: Either 'response' or 'responseSchema' must be defined"))
  else
    let newId := s.nextServiceId
    let newService : Service :=
      { id := newId, name := spec.name, type := spec.type, request := spec.request,
        response := spec.response, requestSchema := spec.requestSchema,
        responseSchema := spec.responseSchema }
    let s₁ := { s with services := s.services ++ [(newId, newService)],
                       nextServiceId := newId + 1 }
    let newClients := s₁.clients.map (fun c =>
      { c with outbox := c.outbox ++ [Frame.advertiseServices [newService]] })
    ({ s₁ with clients := newClients }, some newId, none)

/-- FoxgloveServer.remove_service: del on the table first (KeyError leaves
everything untouched), then send every client an unadvertiseServices. -/
def ServerState.remove_service (s : ServerState) (serviceId : Nat) :
    ServerState × Option PyExc :=
  if (alookup s.services serviceId).isNone then
    (s, some { kind := "KeyError", msg := toString serviceId })
  else
    let s₁ := { s with services := s.services.filter (fun p => decide (p.1 ≠ serviceId)) }
    ({ s₁ with clients := s₁.clients.map (fun c =>
        { c with outbox := c.outbox ++ [Frame.unadvertiseServices [serviceId]] }) },
     none)

/-- FoxgloveServer.update_parameters: each client receives the sublist of
parameters whose names are in its subscribed_params set, only when that
sublist is nonempty, with id null. -/
def ServerState.update_parameters (s : ServerState) (parameters : List Parameter) :
    ServerState :=
  { s with clients := s.clients.map (fun c =>
      let paramsOfInterest := parameters.filter (fun p => decide (p.name ∈ c.subscribed_params))
      if paramsOfInterest.length ≠ 0 then
        { c with outbox := c.outbox ++ [Frame.parameterValues paramsOfInterest none] }
      else c) }

/-- The MESSAGE_DATA binary frame: struct format of MessageDataHeader followed
by the payload. -/
def messageDataFrame (subId timestamp : Nat) (payload : List Nat) : List Nat :=
  [1] ++ u32le subId ++ u64le timestamp ++ payload

/-- FoxgloveServer.send_message: for each client, look up its subscription id
for the channel and, if present, enqueue a MESSAGE_DATA frame on that
client's outbound write path. -/
def ServerState.send_message (s : ServerState) (chanId timestamp : Nat)
    (payload : List Nat) : ServerState :=
  { s with clients := s.clients.map (fun c =>
      match alookup c.subscriptions_by_channel chanId with
      | none => c
      | some subId =>
          { c with outbox := c.outbox ++ [Frame.binary (messageDataFrame subId timestamp payload)] }) }

/-- FoxgloveServer._handle_connection up to the inbound loop: register a fresh
session, then send serverInfo, the full advertise snapshot, and (when the
services capability is set) the advertiseServices snapshot.  Inbound frames
of the new client are handled only by later events. -/
def handle_connection_init (s : ServerState) : ServerState :=
  let c0 : ClientState :=
    { connId := s.nextConnId, subscriptions := [], subscriptions_by_channel := [],
      advertisements_by_channel := [], subscribed_params := [], outbox := [] }
  let s₁ := { s with clients := s.clients ++ [c0], nextConnId := s.nextConnId + 1 }
  let s₂ := appendFrame s₁ c0.connId
      (Frame.serverInfo s.name s.capabilities s.supported_encodings s.session_id)
  let s₃ := appendFrame s₂ c0.connId (Frame.advertiseChannels (s₁.channels.map Prod.snd))
  if "services" ∈ s.capabilities then
    appendFrame s₃ c0.connId (Frame.advertiseServices (s.services.map Prod.snd))
  else s₃

/-- FoxgloveServer._handle_connection finally block: drop the session, then
fire on_unsubscribe for each of its channels whose aggregate subscriber
count has reached zero. -/
def handle_disconnect (L : Option Listener) (s : ServerState) (cid : Nat) :
    ServerState × List Callback :=
  match findClient s cid with
  | none => (s, [])
  | some cl =>
      let s' := { s with clients := s.clients.filter (fun c => decide (c.connId ≠ cid)) }
      let cbs :=
        if L.isSome then
          (cl.subscriptions_by_channel.map Prod.fst).filterMap (fun ch =>
            if any_subscribed s' ch then none else some (Callback.onUnsubscribe ch))
        else []
      (s', cbs)

/-- Process a batch of items sequentially, accumulating callbacks, as the
for-loops of _handle_client_text_message do. -/
def processList {α : Type} (f : ServerState → α → ServerState × List Callback) :
    ServerState → List α → ServerState × List Callback
  | s, [] => (s, [])
  | s, x :: xs =>
      let r₁ := f s x
      let r₂ := processList f r₁.1 xs
      (r₂.1, r₁.2 ++ r₂.2)

/-- One entry of a subscribe batch: duplicate subscription ids get an error
status, unknown channels a warning, a second subscription to a channel the
session already subscribes a warning; on acceptance the listener is
notified iff no session subscribed the channel before the insert. -/
def handleSubscribeEntry (L : Option Listener) (cid : Nat) (s : ServerState)
    (entry : Nat × Nat) : ServerState × List Callback :=
  let subId := entry.1
  let chanId := entry.2
  match findClient s cid with
  | none => (s, [])
  | some cl =>
      if (alookup cl.subscriptions subId).isSome then
        (appendFrame s cid (Frame.status 2
          ("Client subscription id " ++ toString subId ++
           " was already used; ignoring subscription")), [])
      else if (alookup s.channels chanId).isNone then
        (appendFrame s cid (Frame.status 1
          ("Channel " ++ toString chanId ++ " is not available; ignoring subscription")), [])
      else
        let firstSubscription := !(any_subscribed s chanId)
        match cl.add_subscription subId chanId with
        | (false, _) =>
            (appendFrame s cid (Frame.status 1
              ("Client is already subscribed to channel " ++ toString chanId ++
               "; ignoring subscription")), [])
        | (true, cl') =>
            (replaceClient s cid cl',
             if L.isSome && firstSubscription then [Callback.onSubscribe chanId] else [])

/-- One id of an unsubscribe batch: unknown ids get a warning status; on
removal the listener is notified iff no session subscribes the channel
after the removal. -/
def handleUnsubscribeEntry (L : Option Listener) (cid : Nat) (s : ServerState)
    (subId : Nat) : ServerState × List Callback :=
  match findClient s cid with
  | none => (s, [])
  | some cl =>
      match cl.remove_subscription subId with
      | (none, _) =>
          (appendFrame s cid (Frame.status 1
            ("Client subscription id " ++ toString subId ++
             " did not exist; ignoring unsubscription")), [])
      | (some chanId, cl') =>
          let s' := replaceClient s cid cl'
          (s',
           if L.isSome && !(any_subscribed s' chanId) then
             [Callback.onUnsubscribe chanId]
           else [])

/-- One channel of a client advertise batch. -/
def handleClientAdvertiseEntry (L : Option Listener) (cid : Nat) (s : ServerState)
    (channel : ClientChannel) : ServerState × List Callback :=
  match findClient s cid with
  | none => (s, [])
  | some cl =>
      match cl.add_client_channel channel with
      | (false, _) =>
          (appendFrame s cid (Frame.status 1
            ("Failed to add client channel " ++ toString channel.id)), [])
      | (true, cl') =>
          (replaceClient s cid cl',
           if L.isSome then [Callback.onClientAdvertise channel] else [])

/-- One channel id of a client unadvertise batch. -/
def handleClientUnadvertiseEntry (L : Option Listener) (cid : Nat) (s : ServerState)
    (channelId : Nat) : ServerState × List Callback :=
  match findClient s cid with
  | none => (s, [])
  | some cl =>
      match cl.remove_client_channel channelId with
      | (false, _) =>
          (appendFrame s cid (Frame.status 1
            ("Failed to remove client channel " ++ toString channelId)), [])
      | (true, cl') =>
          (replaceClient s cid cl',
           if L.isSome then [Callback.onClientUnadvertise channelId] else [])

/-- A decoded client JSON control message; unknown carries an op string that
no branch of _handle_client_text_message recognizes. -/
inductive ClientMessage where
  | subscribe (subscriptions : List (Nat × Nat))
  | unsubscribe (subscriptionIds : List Nat)
  | advertise (channels : List ClientChannel)
  | unadvertise (channelIds : List Nat)
  | getParameters (parameterNames : List String) (id : Option String)
  | setParameters (parameters : List Parameter) (id : Option String)
  | subscribeParameterUpdates (parameterNames : List String)
  | unsubscribeParameterUpdates (parameterNames : List String)
  | unknown (op : String)
  deriving Repr, DecidableEq

/-- FoxgloveServer._handle_client_text_message.  The Option PyExc component
carries an exception raised out of the handler together with the state the
handler had already produced at the raise point. -/
def handle_client_text_message (L : Option Listener) (s : ServerState) (cid : Nat) :
    ClientMessage → ServerState × List Callback × Option PyExc
  | ClientMessage.subscribe entries =>
      let r := processList (handleSubscribeEntry L cid) s entries
      (r.1, r.2, none)
  | ClientMessage.unsubscribe ids =>
      let r := processList (handleUnsubscribeEntry L cid) s ids
      (r.1, r.2, none)
  | ClientMessage.advertise channels =>
      let r := processList (handleClientAdvertiseEntry L cid) s channels
      (r.1, r.2, none)
  | ClientMessage.unadvertise ids =>
      let r := processList (handleClientUnadvertiseEntry L cid) s ids
      (r.1, r.2, none)
  | ClientMessage.getParameters names requestId =>
      match L with
      | none => (s, [], none)
      | some l =>
          match l.on_get_parameters names requestId with
          | Except.error e => (s, [], some e)
          | Except.ok params =>
              (appendFrame s cid (Frame.parameterValues params requestId), [], none)
  | ClientMessage.setParameters params requestId =>
      match L with
      | none => (s, [], none)
      | some l =>
          match l.on_set_parameters params requestId with
          | Except.error e => (s, [], some e)
          | Except.ok updatedParams =>
              let s₁ :=
                if requestId.isSome then
                  appendFrame s cid (Frame.parameterValues updatedParams requestId)
                else s
              (s₁.update_parameters updatedParams, [], none)
  | ClientMessage.subscribeParameterUpdates names =>
      let newParamSubscriptions := names.filter (fun n => decide (n ∉ s.subscribed_params))
      let s₁ := updateClient s cid (fun c =>
        { c with subscribed_params := setUpdate c.subscribed_params names })
      let s₂ := { s₁ with subscribed_params := setUpdate s₁.subscribed_params newParamSubscriptions }
      (s₂,
       if L.isSome then [Callback.onParametersSubscribe newParamSubscriptions true] else [],
       none)
  | ClientMessage.unsubscribeParameterUpdates names =>
      let newParamUnsubscriptions := names.filter (fun n => decide (n ∈ s.subscribed_params))
      let s₁ := updateClient s cid (fun c =>
        { c with subscribed_params := setDiff c.subscribed_params names })
      let s₂ := { s₁ with subscribed_params := setDiff s₁.subscribed_params newParamUnsubscriptions }
      (s₂,
       if L.isSome then [Callback.onParametersSubscribe newParamUnsubscriptions false] else [],
       none)
  | ClientMessage.unknown op =>
      (s, [], some { kind := "ValueError", msg := "Unrecognized client opcode: " ++ op })

/-- FoxgloveServer._handle_client_binary_message. -/
def handle_client_binary_message (L : Option Listener) (s : ServerState) (cid : Nat)
    (message : List Nat) : ServerState × List Callback × Option PyExc :=
  if message.length < 5 then
    (appendFrame s cid (Frame.status 2
      ("Received invalid binary message of size " ++ toString message.length)), [], none)
  else if message.getD 0 0 = 1 then
    match findClient s cid with
    | none => (s, [], none)
    | some cl =>
        if (alookup cl.advertisements_by_channel (readU32 message 1)).isNone then
          (appendFrame s cid (Frame.status 2
            ("Channel " ++ toString (readU32 message 1) ++ " not registered by client " ++
             remoteAddress cid)), [], none)
        else if L.isSome then
          (s, [Callback.onClientMessage (readU32 message 1) (message.drop 5)], none)
        else (s, [], none)
  else if message.getD 0 0 = 2 then
    if message.length < 13 then
      (s, [], some (PyExc.mk "error"
        ("unpack_from requires a buffer of at least 13 bytes for unpacking 13 bytes at offset 0 (actual buffer size is " ++
          toString message.length ++ ")")))
    else if (alookup s.services (readU32 message 1)).isNone then
      (appendFrame s cid (Frame.status 2
        ("Unknown service " ++ toString (readU32 message 1))), [], none)
    else
      match L with
      | none => (s, [], none)
      | some l =>
          match l.on_service_request (readU32 message 1) (readU32 message 5)
              ((message.drop 13).take (readU32 message 9))
              (message.drop (13 + readU32 message 9)) with
          | Except.error e => (s, [], some e)
          | Except.ok response =>
              (appendFrame s cid (Frame.binary
                ([3] ++ u32le (readU32 message 1) ++ u32le (readU32 message 5) ++
                 u32le (readU32 message 9) ++
                 (message.drop 13).take (readU32 message 9) ++ response)), [], none)
  else
    (appendFrame s cid (Frame.status 2
      ("Received binary message with invalid operation " ++ toString (message.getD 0 0))),
     [], none)

/-- The outcome of json.loads plus the top-level-object check on a text frame:
either a decode failure, a non-object top-level value (with the rendered
type name), or a decoded message object. -/
inductive ParsedText where
  | malformed (errMsg : String)
  | nonObject (typeName : String)
  | obj (m : ClientMessage)
  deriving Repr, DecidableEq

/-- An inbound websocket frame: a text frame (represented by its parse
outcome) or a binary frame. -/
inductive RawMessage where
  | text (t : ParsedText)
  | binary (bytes : List Nat)
  deriving Repr, DecidableEq

/-- The inner dispatch of _handle_raw_client_message, before its
exception-to-status wrapper. -/
def handleRawInner (L : Option Listener) (s : ServerState) (cid : Nat) :
    RawMessage → ServerState × List Callback × Option PyExc
  | RawMessage.text (ParsedText.malformed err) =>
      (s, [], some { kind := "JSONDecodeError", msg := err })
  | RawMessage.text (ParsedText.nonObject typeName) =>
      (s, [], some { kind := "TypeError", msg := "Expected JSON object, got " ++ typeName })
  | RawMessage.text (ParsedText.obj m) => handle_client_text_message L s cid m
  | RawMessage.binary bytes => handle_client_binary_message L s cid bytes

/-- FoxgloveServer._handle_raw_client_message: any exception from handling is
turned into an error status on the same connection; the connection stays
registered. -/
def handle_raw_client_message (L : Option Listener) (s : ServerState) (cid : Nat)
    (raw : RawMessage) : ServerState × List Callback :=
  let r := handleRawInner L s cid raw
  match r.2.2 with
  | none => (r.1, r.2.1)
  | some e => (appendFrame r.1 cid (Frame.status 2 (e.kind ++ ": " ++ e.msg)), r.2.1)

/-- An externally visible event driving the broker: a producer API call, a
connection accept or loss, or an inbound client frame. -/
inductive Event where
  | connect
  | disconnect (cid : Nat)
  | message (cid : Nat) (raw : RawMessage)
  | addChannel (spec : ChannelWithoutId)
  | removeChannel (chanId : Nat)
  | addService (spec : ServiceWithoutId)
  | removeService (serviceId : Nat)
  | updateParams (params : List Parameter)
  | sendMessage (chanId : Nat) (timestamp : Nat) (payload : List Nat)
  deriving Repr, DecidableEq

/-- One event step of the broker. -/
def step (L : Option Listener) (s : ServerState) : Event → ServerState × List Callback
  | Event.connect => (handle_connection_init s, [])
  | Event.disconnect cid => handle_disconnect L s cid
  | Event.message cid raw => handle_raw_client_message L s cid raw
  | Event.addChannel spec => ((s.add_channel spec).1, [])
  | Event.removeChannel chanId =>
      let r := s.remove_channel chanId
      (r.1, r.2.1)
  | Event.addService spec => ((s.add_service spec).1, [])
  | Event.removeService serviceId => ((s.remove_service serviceId).1, [])
  | Event.updateParams params => (s.update_parameters params, [])
  | Event.sendMessage chanId timestamp payload => (s.send_message chanId timestamp payload, [])

/-- A run over an event trace, accumulating emitted callbacks in order. -/
def run (L : Option Listener) : ServerState → List Event → ServerState × List Callback
  | s, [] => (s, [])
  | s, e :: rest =>
      let r₁ := step L s e
      let r₂ := run L r₁.1 rest
      (r₂.1, r₁.2 ++ r₂.2)

/-- A freshly constructed server: no clients, empty tables, id counters at 0. -/
def initialState (name : String) (capabilities : List String)
    (supportedEncodings : Option (List String)) (sessionId : Option String) : ServerState :=
  { name := name, capabilities := capabilities,
    supported_encodings := supportedEncodings, session_id := sessionId,
    clients := [], channels := [], nextChannelId := 0, services := [],
    nextServiceId := 0, subscribed_params := [], nextConnId := 0 }

/-- Session-local consistency of the two subscription maps: unique keys and
mutual inversion (spec invariant I1, maintained by ClientState). -/
def WFClient (c : ClientState) : Prop :=
  (c.subscriptions.map Prod.fst).Nodup ∧
  (c.subscriptions_by_channel.map Prod.fst).Nodup ∧
  (∀ p ∈ c.subscriptions, (p.2, p.1) ∈ c.subscriptions_by_channel) ∧
  (∀ q ∈ c.subscriptions_by_channel, (q.2, q.1) ∈ c.subscriptions)

/-- Broker-wide well-formedness: distinct fresh connection identities, every
session consistent. -/
def WFServer (s : ServerState) : Prop :=
  (s.clients.map ClientState.connId).Nodup ∧
  (∀ c ∈ s.clients, c.connId < s.nextConnId) ∧
  (∀ c ∈ s.clients, WFClient c)

/-- Number of occurrences of a callback in an emitted callback list. -/
def countCallback (cbs : List Callback) (target : Callback) : Nat :=
  (cbs.filter (fun c => decide (c = target))).length

instance (c : ClientState) : Decidable (WFClient c) := by
  unfold WFClient
  infer_instance

instance (s : ServerState) : Decidable (WFServer s) := by
  unfold WFServer
  infer_instance

/-- A concrete listener used to instantiate witnesses. -/
def trivialListener : Listener :=
  { on_service_request := fun _ _ _ _ => Except.ok [],
    on_get_parameters := fun _ _ => Except.ok [],
    on_set_parameters := fun params _ => Except.ok params }

theorem alookup_append {α : Type} (l₁ l₂ : List (Nat × α)) (k : Nat) :
    alookup (l₁ ++ l₂) k =
      match alookup l₁ k with
      | some v => some v
      | none => alookup l₂ k := by
  induction l₁ with
  | nil => simp [alookup]
  | cons p rest ih =>
      by_cases h : p.1 = k <;> simp [alookup, h, ih]

theorem alookup_append_single_ne {α : Type} (l : List (Nat × α)) (a : Nat) (b : α)
    (k : Nat) (h : a ≠ k) : alookup (l ++ [(a, b)]) k = alookup l k := by
  rw [alookup_append]
  cases hl : alookup l k <;> simp [alookup, h]

theorem alookup_append_single_self {α : Type} (l : List (Nat × α)) (a : Nat) (b : α)
    (h : alookup l a = none) : alookup (l ++ [(a, b)]) a = some b := by
  rw [alookup_append, h]
  simp [alookup]

theorem alookup_filter_self {α : Type} (l : List (Nat × α)) (k : Nat) :
    alookup (l.filter (fun p => decide (p.1 ≠ k))) k = none := by
  induction l with
  | nil => simp [alookup]
  | cons p rest ih =>
      rw [List.filter_cons]
      by_cases h : p.1 = k
      · simpa [h] using ih
      · simpa [h, alookup] using ih

theorem alookup_filter_ne {α : Type} (l : List (Nat × α)) (k k₀ : Nat) (h : k ≠ k₀) :
    alookup (l.filter (fun p => decide (p.1 ≠ k₀))) k = alookup l k := by
  induction l with
  | nil => simp
  | cons p rest ih =>
      rw [List.filter_cons]
      by_cases hp : p.1 = k₀
      · have hcond : ¬ (decide (p.1 ≠ k₀) = true) := by simp [hp]
        rw [if_neg hcond, ih]
        have hpk : p.1 ≠ k := by omega
        simp [alookup, hpk]
      · have hcond : decide (p.1 ≠ k₀) = true := by simp [hp]
        rw [if_pos hcond]
        simp only [alookup]
        by_cases hk : p.1 = k
        · simp [hk]
        · rw [if_neg hk, if_neg hk]
          exact ih

theorem alookup_eq_none_iff {α : Type} (l : List (Nat × α)) (k : Nat) :
    alookup l k = none ↔ k ∉ l.map Prod.fst := by
  induction l with
  | nil => simp [alookup]
  | cons p rest ih =>
      by_cases h : p.1 = k <;> simp [alookup, h, ih]
      omega

theorem alookup_isSome_iff {α : Type} (l : List (Nat × α)) (k : Nat) :
    (alookup l k).isSome = true ↔ k ∈ l.map Prod.fst := by
  induction l with
  | nil => simp [alookup]
  | cons p rest ih =>
      by_cases h : p.1 = k
      · simp [alookup, h]
      · simp [alookup, h, ih]
        intro hk
        omega

theorem alookup_eq_some_mem {α : Type} {l : List (Nat × α)} {k : Nat} {v : α}
    (h : alookup l k = some v) : (k, v) ∈ l := by
  induction l with
  | nil => simp [alookup] at h
  | cons p rest ih =>
      obtain ⟨a, b⟩ := p
      by_cases hp : a = k
      · simp [alookup, hp] at h
        subst hp
        simp [h]
      · simp [alookup, hp] at h
        exact List.mem_cons_of_mem _ (ih h)

theorem mem_alookup_isSome {α : Type} {l : List (Nat × α)} {k : Nat} {v : α}
    (h : (k, v) ∈ l) : (alookup l k).isSome = true := by
  rw [alookup_isSome_iff]
  exact List.mem_map.2 ⟨(k, v), h, rfl⟩

theorem pair_eq_of_nodup_keys {α : Type} {l : List (Nat × α)}
    (hnd : (l.map Prod.fst).Nodup) {p q : Nat × α} (hp : p ∈ l) (hq : q ∈ l)
    (h : p.1 = q.1) : p = q :=
  List.inj_on_of_nodup_map hnd hp hq h

theorem alookup_of_nodup_mem {α : Type} {l : List (Nat × α)}
    (hnd : (l.map Prod.fst).Nodup) {k : Nat} {v : α} (h : (k, v) ∈ l) :
    alookup l k = some v := by
  cases hl : alookup l k with
  | none => exact absurd ((alookup_eq_none_iff l k).1 hl) (by simp; exact ⟨v, h⟩)
  | some w =>
      have hw : (k, w) ∈ l := alookup_eq_some_mem hl
      have := pair_eq_of_nodup_keys hnd hw h rfl
      simp_all

theorem mem_setUpdate (s l : List String) (n : String) :
    n ∈ setUpdate s l ↔ n ∈ s ∨ n ∈ l := by
  induction l generalizing s with
  | nil => simp [setUpdate]
  | cons a l ih =>
      show n ∈ setUpdate (if a ∈ s then s else s ++ [a]) l ↔ _
      rw [ih]
      by_cases h : a ∈ s
      · simp [h]
        constructor
        · rintro (hs | hl)
          · exact Or.inl hs
          · exact Or.inr (Or.inr hl)
        · rintro (hs | rfl | hl)
          · exact Or.inl hs
          · exact Or.inl h
          · exact Or.inr hl
      · simp [h, List.mem_append]
        tauto

theorem mem_setDiff (s l : List String) (n : String) :
    n ∈ setDiff s l ↔ n ∈ s ∧ n ∉ l := by
  simp [setDiff, List.mem_filter]

theorem map_fixed_id {α : Type} (l : List α) (f : α → α) (h : ∀ x ∈ l, f x = x) :
    l.map f = l := by
  induction l with
  | nil => rfl
  | cons a l ih => simp [h a (by simp), ih (fun x hx => h x (by simp [hx]))]

theorem findClient_eq_some {s : ServerState} {cid : Nat} {cl : ClientState}
    (h : findClient s cid = some cl) : cl ∈ s.clients ∧ cl.connId = cid :=
  ⟨List.mem_of_find?_eq_some h, by simpa using List.find?_some h⟩

theorem findClient_map (s : ServerState) (cid : Nat) (g : ClientState → ClientState)
    (hg : ∀ c, (g c).connId = c.connId) :
    findClient { s with clients := s.clients.map g } cid = (findClient s cid).map g := by
  show (s.clients.map g).find? _ = _
  rw [List.find?_map]
  have hp : ((fun c => decide (c.connId = cid)) ∘ g) = fun c => decide (c.connId = cid) := by
    funext c
    simp [Function.comp, hg]
  rw [hp]
  rfl

theorem exists_of_any_subscribed {s : ServerState} {C : Nat}
    (h : any_subscribed s C = true) :
    ∃ c ∈ s.clients, (alookup c.subscriptions_by_channel C).isSome = true := by
  simpa [any_subscribed, List.any_eq_true] using h

theorem any_subscribed_of_mem {s : ServerState} {C : Nat} {c : ClientState}
    (hc : c ∈ s.clients) (h : (alookup c.subscriptions_by_channel C).isSome = true) :
    any_subscribed s C = true := by
  simp [any_subscribed, List.any_eq_true]
  exact ⟨c, hc, h⟩

theorem any_subscribed_false_iff (s : ServerState) (C : Nat) :
    any_subscribed s C = false ↔
      ∀ c ∈ s.clients, (alookup c.subscriptions_by_channel C).isSome = false := by
  simp [any_subscribed, List.any_eq_false]

theorem any_subscribed_map_same (s : ServerState) (g : ClientState → ClientState)
    (C : Nat) (h : ∀ c, (g c).subscriptions_by_channel = c.subscriptions_by_channel) :
    any_subscribed { s with clients := s.clients.map g } C = any_subscribed s C := by
  show (s.clients.map g).any _ = _
  rw [List.any_map]
  congr 1
  funext c
  simp [Function.comp, h]

theorem clientRemoveChannel_spec (c : ClientState) (chanId : Nat) (hw : WFClient c) :
    alookup (c.remove_channel chanId).subscriptions_by_channel chanId = none ∧
    (∀ su, (su, chanId) ∉ (c.remove_channel chanId).subscriptions) ∧
    (∀ su ch2, ch2 ≠ chanId →
      ((su, ch2) ∈ (c.remove_channel chanId).subscriptions ↔ (su, ch2) ∈ c.subscriptions)) ∧
    (∀ ch2 su, ch2 ≠ chanId →
      ((ch2, su) ∈ (c.remove_channel chanId).subscriptions_by_channel ↔
        (ch2, su) ∈ c.subscriptions_by_channel)) ∧
    (c.remove_channel chanId).connId = c.connId ∧
    (c.remove_channel chanId).outbox = c.outbox ∧
    (c.remove_channel chanId).subscribed_params = c.subscribed_params := by
  unfold ClientState.remove_channel
  cases hcase : alookup c.subscriptions_by_channel chanId with
  | none =>
      refine ⟨hcase, ?_, by simp, by simp, rfl, rfl, rfl⟩
      intro su hmem
      have h1 := hw.2.2.1 (su, chanId) hmem
      have h2 := mem_alookup_isSome h1
      simp [hcase] at h2
  | some x =>
      refine ⟨alookup_filter_self _ _, ?_, ?_, ?_, rfl, rfl, rfl⟩
      · intro su hmem
        simp [List.mem_filter] at hmem
      · intro su ch2 hne
        simp [List.mem_filter, hne]
      · intro ch2 su hne
        simp [List.mem_filter, hne]

/-- Claim C9: remove_channel on an id absent from the channel table raises
KeyError with the broker and all client-session state unchanged, before any
message is sent; remove_service behaves the same for an unknown service id. -/
theorem c9_remove_unknown_raises_keyerror (s : ServerState) (chanId serviceId : Nat)
    (hc : alookup s.channels chanId = none) (hs : alookup s.services serviceId = none) :
    s.remove_channel chanId = (s, [], some (PyExc.mk "KeyError" (toString chanId))) ∧
    s.remove_service serviceId = (s, some (PyExc.mk "KeyError" (toString serviceId))) := by
  constructor
  · simp [ServerState.remove_channel, hc]
  · simp [ServerState.remove_service, hs]

/-- Witness for C9 at a concrete empty server and fresh ids. -/
theorem c9_witness :
    (initialState "srv" [] none none).remove_channel 5 =
      (initialState "srv" [] none none, [], some (PyExc.mk "KeyError" (toString 5))) ∧
    (initialState "srv" [] none none).remove_service 7 =
      (initialState "srv" [] none none, some (PyExc.mk "KeyError" (toString 7))) :=
  c9_remove_unknown_raises_keyerror (initialState "srv" [] none none) 5 7 rfl rfl

/-- Claim C3: remove_channel on a registered id removes the channel from the
table, silently clears the channel from every session's subscription map and
its inverse, appends to every registered client exactly one unadvertise frame
carrying exactly that id, and invokes no listener callback (in particular
never on_unsubscribe, even if the channel had subscribers). -/
theorem c3_remove_channel_spec (s : ServerState) (chanId : Nat) (ch : Channel)
    (hW : WFServer s) (hch : alookup s.channels chanId = some ch) :
    (s.remove_channel chanId).2.1 = [] ∧
    (s.remove_channel chanId).2.2 = none ∧
    alookup (s.remove_channel chanId).1.channels chanId = none ∧
    (∀ k, k ≠ chanId →
      alookup (s.remove_channel chanId).1.channels k = alookup s.channels k) ∧
    (s.remove_channel chanId).1.clients.length = s.clients.length ∧
    ∀ (i : Nat) (h1 : i < s.clients.length)
      (h2 : i < (s.remove_channel chanId).1.clients.length),
      alookup ((s.remove_channel chanId).1.clients.get ⟨i, h2⟩).subscriptions_by_channel chanId = none ∧
      (∀ su, (su, chanId) ∉ ((s.remove_channel chanId).1.clients.get ⟨i, h2⟩).subscriptions) ∧
      (∀ su ch2, ch2 ≠ chanId →
        ((su, ch2) ∈ ((s.remove_channel chanId).1.clients.get ⟨i, h2⟩).subscriptions ↔
         (su, ch2) ∈ (s.clients.get ⟨i, h1⟩).subscriptions)) ∧
      ((s.remove_channel chanId).1.clients.get ⟨i, h2⟩).outbox =
        (s.clients.get ⟨i, h1⟩).outbox ++ [Frame.unadvertiseChannels [chanId]] := by
  have hnn : (alookup s.channels chanId).isNone = false := by simp [hch]
  constructor
  · simp [ServerState.remove_channel, hnn]
  constructor
  · simp [ServerState.remove_channel, hnn]
  constructor
  · simp only [ServerState.remove_channel, hnn, Bool.false_eq_true, if_false]
    exact alookup_filter_self _ _
  constructor
  · intro k hk
    simp only [ServerState.remove_channel, hnn, Bool.false_eq_true, if_false]
    exact alookup_filter_ne _ _ _ hk
  constructor
  · simp [ServerState.remove_channel, hnn]
  · intro i h1 h2
    have hmem : s.clients.get ⟨i, h1⟩ ∈ s.clients := List.get_mem s.clients i h1
    have hwc : WFClient (s.clients.get ⟨i, h1⟩) := hW.2.2 _ hmem
    have hspec := clientRemoveChannel_spec (s.clients.get ⟨i, h1⟩) chanId hwc
    have hget : (s.remove_channel chanId).1.clients.get ⟨i, h2⟩ =
        (let c₁ := (s.clients.get ⟨i, h1⟩).remove_channel chanId
         { c₁ with outbox := c₁.outbox ++ [Frame.unadvertiseChannels [chanId]] }) := by
      simp [ServerState.remove_channel, hnn, List.get_eq_getElem, List.getElem_map]
    rw [hget]
    refine ⟨hspec.1, hspec.2.1, fun su ch2 hne => hspec.2.2.1 su ch2 hne, ?_⟩
    show ((s.clients.get ⟨i, h1⟩).remove_channel chanId).outbox ++ _ = _
    rw [hspec.2.2.2.2.2.1]

/-- Witness for C3: one registered channel with one subscribed client. -/
theorem c3_witness :
    ((run (some trivialListener) (initialState "srv" [] none none)
        [Event.addChannel (ChannelWithoutId.mk "t" "e" "S" "sch" none),
         Event.connect,
         Event.message 0 (RawMessage.text (ParsedText.obj
           (ClientMessage.subscribe [(42, 0)])))]).1.remove_channel 0).2.1 = [] ∧
    alookup ((run (some trivialListener) (initialState "srv" [] none none)
        [Event.addChannel (ChannelWithoutId.mk "t" "e" "S" "sch" none),
         Event.connect,
         Event.message 0 (RawMessage.text (ParsedText.obj
           (ClientMessage.subscribe [(42, 0)])))]).1.remove_channel 0).1.channels 0 = none := by
  have h := c3_remove_channel_spec
    (run (some trivialListener) (initialState "srv" [] none none)
        [Event.addChannel (ChannelWithoutId.mk "t" "e" "S" "sch" none),
         Event.connect,
         Event.message 0 (RawMessage.text (ParsedText.obj
           (ClientMessage.subscribe [(42, 0)])))]).1
    0 (Channel.mk 0 "t" "e" "S" "sch" none) (by decide) (by decide)
  exact ⟨h.1, h.2.2.1⟩

/-- Claim C10: update_parameters sends a client a parameterValues message iff
some element of params has a name in that client's subscribed_params set;
the message holds exactly the name-filtered subsequence of params in
original order with id null; a client with no match receives nothing. -/
theorem c10_update_parameters_spec (s : ServerState) (params : List Parameter)
    (i : Nat) (h1 : i < s.clients.length)
    (h2 : i < (s.update_parameters params).clients.length) :
    (s.update_parameters params).clients.length = s.clients.length ∧
    (params.filter (fun p => decide (p.name ∈ (s.clients.get ⟨i, h1⟩).subscribed_params)) = [] →
      (s.update_parameters params).clients.get ⟨i, h2⟩ = s.clients.get ⟨i, h1⟩) ∧
    (params.filter (fun p => decide (p.name ∈ (s.clients.get ⟨i, h1⟩).subscribed_params)) ≠ [] →
      (s.update_parameters params).clients.get ⟨i, h2⟩ =
        { s.clients.get ⟨i, h1⟩ with
          outbox := (s.clients.get ⟨i, h1⟩).outbox ++
            [Frame.parameterValues
              (params.filter (fun p => decide (p.name ∈ (s.clients.get ⟨i, h1⟩).subscribed_params)))
              none] }) ∧
    (params.filter (fun p => decide (p.name ∈ (s.clients.get ⟨i, h1⟩).subscribed_params)) ≠ [] ↔
      ∃ p ∈ params, p.name ∈ (s.clients.get ⟨i, h1⟩).subscribed_params) := by
  have hget : (s.update_parameters params).clients.get ⟨i, h2⟩ =
      (if (params.filter
            (fun p => decide (p.name ∈ (s.clients.get ⟨i, h1⟩).subscribed_params))).length ≠ 0 then
        { s.clients.get ⟨i, h1⟩ with
          outbox := (s.clients.get ⟨i, h1⟩).outbox ++
            [Frame.parameterValues
              (params.filter
                (fun p => decide (p.name ∈ (s.clients.get ⟨i, h1⟩).subscribed_params)))
              none] }
      else s.clients.get ⟨i, h1⟩) := by
    simp [ServerState.update_parameters, List.get_eq_getElem, List.getElem_map]
  refine ⟨by simp [ServerState.update_parameters], ?_, ?_, ?_⟩
  · intro hnil
    rw [hget, hnil]
    simp
  · intro hne
    rw [hget, if_pos (by simpa [List.length_eq_zero] using hne)]
  · rw [Ne, List.filter_eq_nil_iff]
    push_neg
    simp

/-- Witness for C10: one client subscribed to parameter x, a second client
subscribed to nothing. -/
theorem c10_witness :
    (ServerState.update_parameters
        (ServerState.mk "srv" [] none none
          [ClientState.mk 0 [] [] [] ["x"] [], ClientState.mk 1 [] [] [] [] []]
          [] 0 [] 0 ["x"] 2)
        [Parameter.mk "x" (PValue.int 7) none,
         Parameter.mk "y" (PValue.int 8) none]).clients.length =
      (ServerState.mk "srv" [] none none
          [ClientState.mk 0 [] [] [] ["x"] [], ClientState.mk 1 [] [] [] [] []]
          [] 0 [] 0 ["x"] 2).clients.length ∧
    ([Parameter.mk "x" (PValue.int 7) none, Parameter.mk "y" (PValue.int 8) none].filter
        (fun p => decide (p.name ∈
          ((ServerState.mk "srv" [] none none
            [ClientState.mk 0 [] [] [] ["x"] [], ClientState.mk 1 [] [] [] [] []]
            [] 0 [] 0 ["x"] 2).clients.get ⟨0, by decide⟩).subscribed_params)) ≠ [] ↔
      ∃ p ∈ [Parameter.mk "x" (PValue.int 7) none, Parameter.mk "y" (PValue.int 8) none],
        p.name ∈ ((ServerState.mk "srv" [] none none
          [ClientState.mk 0 [] [] [] ["x"] [], ClientState.mk 1 [] [] [] [] []]
          [] 0 [] 0 ["x"] 2).clients.get ⟨0, by decide⟩).subscribed_params) := by
  have h := c10_update_parameters_spec
    (ServerState.mk "srv" [] none none
      [ClientState.mk 0 [] [] [] ["x"] [], ClientState.mk 1 [] [] [] [] []]
      [] 0 [] 0 ["x"] 2)
    [Parameter.mk "x" (PValue.int 7) none, Parameter.mk "y" (PValue.int 8) none]
    0 (by decide) (by decide)
  exact ⟨h.1, h.2.2.2⟩

/-- Claim C4: a subscribe entry with a fresh subscription id for a channel the
session already subscribes is answered with a warning status (level 1), the
session's maps stay unchanged (the pre-existing subscription remains), and
processing continues with the remaining entries of the batch. -/
theorem c4_duplicate_channel_subscription (L : Option Listener) (s : ServerState)
    (cid subId chanId : Nat) (cl : ClientState) (rest : List (Nat × Nat))
    (hfind : findClient s cid = some cl)
    (hfresh : alookup cl.subscriptions subId = none)
    (hchan : (alookup s.channels chanId).isSome = true)
    (hdup : (alookup cl.subscriptions_by_channel chanId).isSome = true) :
    handleSubscribeEntry L cid s (subId, chanId) =
      (appendFrame s cid (Frame.status 1
        ("Client is already subscribed to channel " ++ toString chanId ++
         "; ignoring subscription")), []) ∧
    findClient (handleSubscribeEntry L cid s (subId, chanId)).1 cid =
      some { cl with outbox := cl.outbox ++ [Frame.status 1
        ("Client is already subscribed to channel " ++ toString chanId ++
         "; ignoring subscription")] } ∧
    processList (handleSubscribeEntry L cid) s ((subId, chanId) :: rest) =
      processList (handleSubscribeEntry L cid)
        (handleSubscribeEntry L cid s (subId, chanId)).1 rest := by
  have hcid : cl.connId = cid := (findClient_eq_some hfind).2
  have hmain : handleSubscribeEntry L cid s (subId, chanId) =
      (appendFrame s cid (Frame.status 1
        ("Client is already subscribed to channel " ++ toString chanId ++
         "; ignoring subscription")), []) := by
    unfold handleSubscribeEntry
    rw [hfind]
    simp only [hfresh, Option.isSome_none, Bool.false_eq_true, if_false]
    rw [if_neg (by simp [Option.isNone_iff_eq_none, Option.isSome_iff_ne_none] at hchan ⊢; exact hchan)]
    unfold ClientState.add_subscription
    rw [if_pos hdup]
  refine ⟨hmain, ?_, ?_⟩
  · rw [hmain]
    show findClient (appendFrame s cid _) cid = _
    unfold appendFrame updateClient
    rw [findClient_map]
    · rw [hfind]
      simp [hcid]
    · intro c
      by_cases hc : c.connId = cid <;> simp [hc]
  · show (let r₁ := handleSubscribeEntry L cid s (subId, chanId)
          let r₂ := processList (handleSubscribeEntry L cid) r₁.1 rest
          (r₂.1, r₁.2 ++ r₂.2)) = _
    rw [hmain]
    simp

/-- Witness for C4 at a concrete session already subscribed to channel 0. -/
theorem c4_witness :
    handleSubscribeEntry (some trivialListener) 0
      (ServerState.mk "srv" [] none none
        [ClientState.mk 0 [(42, 0)] [(0, 42)] [] [] []]
        [(0, Channel.mk 0 "t" "e" "S" "sch" none)] 1 [] 0 [] 1)
      (43, 0) =
      (appendFrame
        (ServerState.mk "srv" [] none none
          [ClientState.mk 0 [(42, 0)] [(0, 42)] [] [] []]
          [(0, Channel.mk 0 "t" "e" "S" "sch" none)] 1 [] 0 [] 1)
        0 (Frame.status 1
          ("Client is already subscribed to channel " ++ toString 0 ++
           "; ignoring subscription")), []) :=
  (c4_duplicate_channel_subscription (some trivialListener)
    (ServerState.mk "srv" [] none none
      [ClientState.mk 0 [(42, 0)] [(0, 42)] [] [] []]
      [(0, Channel.mk 0 "t" "e" "S" "sch" none)] 1 [] 0 [] 1)
    0 43 0 (ClientState.mk 0 [(42, 0)] [(0, 42)] [] [] []) []
    (by decide) (by decide) (by decide) (by decide)).1

/-- Claim C5: a newly accepted connection is registered and its outbound path
holds, before any inbound frame of that client is processed, exactly one
serverInfo frame first, then exactly one advertise frame listing exactly the
channels currently in the table, then an advertiseServices frame with the
current services iff the services capability is declared. -/
theorem c5_connection_snapshot (s : ServerState)
    (hb : ∀ c ∈ s.clients, c.connId < s.nextConnId) :
    (handle_connection_init s).clients =
      s.clients ++ [ClientState.mk s.nextConnId [] [] [] []
        ([Frame.serverInfo s.name s.capabilities s.supported_encodings s.session_id,
          Frame.advertiseChannels (s.channels.map Prod.snd)] ++
         (if "services" ∈ s.capabilities then
            [Frame.advertiseServices (s.services.map Prod.snd)]
          else []))] ∧
    ("services" ∈ s.capabilities →
      (handle_connection_init s).clients =
        s.clients ++ [ClientState.mk s.nextConnId [] [] [] []
          [Frame.serverInfo s.name s.capabilities s.supported_encodings s.session_id,
           Frame.advertiseChannels (s.channels.map Prod.snd),
           Frame.advertiseServices (s.services.map Prod.snd)]]) ∧
    ("services" ∉ s.capabilities →
      (handle_connection_init s).clients =
        s.clients ++ [ClientState.mk s.nextConnId [] [] [] []
          [Frame.serverInfo s.name s.capabilities s.supported_encodings s.session_id,
           Frame.advertiseChannels (s.channels.map Prod.snd)]]) := by
  have hmap : ∀ (l : List ClientState) (c0 : ClientState) (fr : Frame),
      (∀ c ∈ l, c.connId ≠ s.nextConnId) → c0.connId = s.nextConnId →
      (l ++ [c0]).map (fun c => if c.connId = s.nextConnId then
          { c with outbox := c.outbox ++ [fr] } else c) =
        l ++ [{ c0 with outbox := c0.outbox ++ [fr] }] := by
    intro l c0 fr hl hc0
    rw [List.map_append]
    congr 1
    · exact map_fixed_id _ _ (fun c hc => if_neg (hl c hc))
    · simp [hc0]
  have hne : ∀ c ∈ s.clients, c.connId ≠ s.nextConnId := by
    intro c hc
    have := hb c hc
    omega
  have hmain : (handle_connection_init s).clients =
      s.clients ++ [ClientState.mk s.nextConnId [] [] [] []
        ([Frame.serverInfo s.name s.capabilities s.supported_encodings s.session_id,
          Frame.advertiseChannels (s.channels.map Prod.snd)] ++
         (if "services" ∈ s.capabilities then
            [Frame.advertiseServices (s.services.map Prod.snd)]
          else []))] := by
    unfold handle_connection_init
    by_cases hserv : "services" ∈ s.capabilities
    · rw [if_pos hserv, if_pos hserv]
      show ((appendFrame (appendFrame (appendFrame _ _ _) _ _) _ _)).clients = _
      unfold appendFrame updateClient
      simp only []
      rw [hmap s.clients _ _ hne rfl]
      rw [hmap s.clients _ _ hne rfl]
      rw [hmap s.clients _ _ hne rfl]
      rfl
    · rw [if_neg hserv, if_neg hserv]
      show ((appendFrame (appendFrame _ _ _) _ _)).clients = _
      unfold appendFrame updateClient
      simp only []
      rw [hmap s.clients _ _ hne rfl]
      rw [hmap s.clients _ _ hne rfl]
      rfl
  refine ⟨hmain, ?_, ?_⟩
  · intro hserv
    rw [hmain, if_pos hserv]
    simp
  · intro hserv
    rw [hmain, if_neg hserv]
    simp

/-- Witness for C5 at a fresh server with the services capability. -/
theorem c5_witness :
    (handle_connection_init (initialState "srv" ["services"] none none)).clients =
      [ClientState.mk 0 [] [] [] []
        [Frame.serverInfo "srv" ["services"] none none,
         Frame.advertiseChannels [], Frame.advertiseServices []]] := by
  have h := c5_connection_snapshot (initialState "srv" ["services"] none none)
    (by intro c hc; simp [initialState] at hc)
  rw [h.2.1 (by decide)]
  rfl

/-- Claim C6: a SERVICE_CALL_REQUEST frame naming a registered service, with a
listener set and a successful handler, is answered on the same connection by
a binary frame whose first byte is opcode 3 and whose little-endian header
echoes the request's serviceId, callId and encodingLen, followed by exactly
encodingLen bytes of the request's encoding string and then exactly the
handler's response bytes. -/
theorem c6_service_call_response (l : Listener) (s : ServerState) (cid : Nat)
    (message : List Nat) (encLen : Nat) (svc : Service) (response : List Nat)
    (hop : message.getD 0 0 = 2)
    (hlen : 13 + encLen ≤ message.length)
    (henc : readU32 message 9 = encLen)
    (hsvc : alookup s.services (readU32 message 1) = some svc)
    (hresp : l.on_service_request (readU32 message 1) (readU32 message 5)
        ((message.drop 13).take encLen) (message.drop (13 + encLen)) = Except.ok response) :
    handle_client_binary_message (some l) s cid message =
      (appendFrame s cid (Frame.binary
        ([3] ++ u32le (readU32 message 1) ++ u32le (readU32 message 5) ++ u32le encLen ++
         (message.drop 13).take encLen ++ response)), [], none) ∧
    ((message.drop 13).take encLen).length = encLen := by
  have h5 : ¬ message.length < 5 := by omega
  have h13 : ¬ message.length < 13 := by omega
  have hop2 : message[0]?.getD 0 = 2 := by simpa using hop
  constructor
  · simp [handle_client_binary_message, h5, h13, hop2, henc, hsvc, hresp]
  · rw [List.length_take, List.length_drop]
    omega

/-- Witness for C6: a concrete json-encoded service call. -/
theorem c6_witness :
    handle_client_binary_message
      (some (Listener.mk (fun _ _ _ _ => Except.ok [42])
        (fun _ _ => Except.ok []) (fun params _ => Except.ok params)))
      (ServerState.mk "srv" ["services"] none none [ClientState.mk 0 [] [] [] [] []]
        [] 0 [(1, Service.mk 1 "svc" "t" (some "rq") (some "rs") none none)] 2 [] 1)
      0 [2, 1, 0, 0, 0, 123, 0, 0, 0, 4, 0, 0, 0, 106, 115, 111, 110, 99] =
    (appendFrame
      (ServerState.mk "srv" ["services"] none none [ClientState.mk 0 [] [] [] [] []]
        [] 0 [(1, Service.mk 1 "svc" "t" (some "rq") (some "rs") none none)] 2 [] 1)
      0 (Frame.binary
        ([3] ++ u32le (readU32 [2, 1, 0, 0, 0, 123, 0, 0, 0, 4, 0, 0, 0, 106, 115, 111, 110, 99] 1) ++
         u32le (readU32 [2, 1, 0, 0, 0, 123, 0, 0, 0, 4, 0, 0, 0, 106, 115, 111, 110, 99] 5) ++
         u32le 4 ++
         ([2, 1, 0, 0, 0, 123, 0, 0, 0, 4, 0, 0, 0, 106, 115, 111, 110, 99].drop 13).take 4 ++
         [42])), [], none) :=
  (c6_service_call_response
    (Listener.mk (fun _ _ _ _ => Except.ok [42])
      (fun _ _ => Except.ok []) (fun params _ => Except.ok params))
    (ServerState.mk "srv" ["services"] none none [ClientState.mk 0 [] [] [] [] []]
      [] 0 [(1, Service.mk 1 "svc" "t" (some "rq") (some "rs") none none)] 2 [] 1)
    0 [2, 1, 0, 0, 0, 123, 0, 0, 0, 4, 0, 0, 0, 106, 115, 111, 110, 99] 4
    (Service.mk 1 "svc" "t" (some "rq") (some "rs") none none) [42]
    (by decide) (by decide) (by decide) (by decide) rfl).1

/-- Claim C8: a MESSAGE_DATA frame already enqueued on a session's serialized
outbound write path survives the processing of that client's unsubscribe for
the same subscription (the queued frame is still delivered), and the
unsubscribe still fires on_unsubscribe when that client was the channel's
last aggregate subscriber. -/
theorem c8_unsubscribe_during_send (l : Listener) (s : ServerState) (cid subId C : Nat)
    (cl : ClientState) (F : List Nat)
    (hfind : findClient s cid = some cl)
    (hsub : alookup cl.subscriptions subId = some C)
    (hlast : ∀ c ∈ s.clients, c.connId ≠ cid → alookup c.subscriptions_by_channel C = none)
    (hF : Frame.binary F ∈ cl.outbox) :
    step (some l) s (Event.message cid (RawMessage.text (ParsedText.obj
        (ClientMessage.unsubscribe [subId])))) =
      (replaceClient s cid
        { cl with
          subscriptions := cl.subscriptions.filter (fun sc => decide (sc.1 ≠ subId)),
          subscriptions_by_channel :=
            cl.subscriptions_by_channel.filter (fun cs => decide (cs.1 ≠ C)) },
       [Callback.onUnsubscribe C]) ∧
    ({ cl with
       subscriptions := cl.subscriptions.filter (fun sc => decide (sc.1 ≠ subId)),
       subscriptions_by_channel :=
         cl.subscriptions_by_channel.filter (fun cs => decide (cs.1 ≠ C)) } :
      ClientState).outbox = cl.outbox ∧
    Frame.binary F ∈
      ({ cl with
         subscriptions := cl.subscriptions.filter (fun sc => decide (sc.1 ≠ subId)),
         subscriptions_by_channel :=
           cl.subscriptions_by_channel.filter (fun cs => decide (cs.1 ≠ C)) } :
        ClientState).outbox := by
  have hany : any_subscribed (replaceClient s cid
      { cl with
        subscriptions := cl.subscriptions.filter (fun sc => decide (sc.1 ≠ subId)),
        subscriptions_by_channel :=
          cl.subscriptions_by_channel.filter (fun cs => decide (cs.1 ≠ C)) }) C = false := by
    rw [any_subscribed_false_iff]
    intro c' hc'
    rcases List.mem_map.1 hc' with ⟨c, hc, hgc⟩
    by_cases hcc : c.connId = cid
    · subst hgc
      rw [if_pos hcc]
      show (alookup (cl.subscriptions_by_channel.filter (fun cs => decide (cs.1 ≠ C))) C).isSome = false
      rw [alookup_filter_self]
      rfl
    · subst hgc
      rw [if_neg hcc]
      simp [hlast c hc hcc]
  have hentry : handleUnsubscribeEntry (some l) cid s subId =
      (replaceClient s cid
        { cl with
          subscriptions := cl.subscriptions.filter (fun sc => decide (sc.1 ≠ subId)),
          subscriptions_by_channel :=
            cl.subscriptions_by_channel.filter (fun cs => decide (cs.1 ≠ C)) },
       [Callback.onUnsubscribe C]) := by
    simp only [handleUnsubscribeEntry, hfind, ClientState.remove_subscription, hsub,
      Option.isSome_some, Bool.true_and]
    rw [hany]
    rfl
  have htext : handle_client_text_message (some l) s cid (ClientMessage.unsubscribe [subId]) =
      (replaceClient s cid
        { cl with
          subscriptions := cl.subscriptions.filter (fun sc => decide (sc.1 ≠ subId)),
          subscriptions_by_channel :=
            cl.subscriptions_by_channel.filter (fun cs => decide (cs.1 ≠ C)) },
       [Callback.onUnsubscribe C], none) := by
    simp only [handle_client_text_message, processList]
    rw [hentry]
    simp [processList]
  constructor
  · simp only [step, handle_raw_client_message, handleRawInner, htext]
  · exact ⟨rfl, hF⟩

/-- Witness for C8: one client with a queued MESSAGE_DATA frame unsubscribing
its only subscription. -/
theorem c8_witness :
    (step (some trivialListener)
      (ServerState.mk "srv" [] none none
        [ClientState.mk 0 [(42, 7)] [(7, 42)] [] []
          [Frame.binary (messageDataFrame 42 100 [104, 105])]]
        [(7, Channel.mk 7 "t" "e" "S" "sch" none)] 8 [] 0 [] 1)
      (Event.message 0 (RawMessage.text (ParsedText.obj
        (ClientMessage.unsubscribe [42]))))).2 = [Callback.onUnsubscribe 7] ∧
    ((step (some trivialListener)
        (ServerState.mk "srv" [] none none
          [ClientState.mk 0 [(42, 7)] [(7, 42)] [] []
            [Frame.binary (messageDataFrame 42 100 [104, 105])]]
          [(7, Channel.mk 7 "t" "e" "S" "sch" none)] 8 [] 0 [] 1)
        (Event.message 0 (RawMessage.text (ParsedText.obj
          (ClientMessage.unsubscribe [42]))))).1.clients.map ClientState.outbox) =
      [[Frame.binary (messageDataFrame 42 100 [104, 105])]] := by
  have h := c8_unsubscribe_during_send trivialListener
    (ServerState.mk "srv" [] none none
      [ClientState.mk 0 [(42, 7)] [(7, 42)] [] []
        [Frame.binary (messageDataFrame 42 100 [104, 105])]]
      [(7, Channel.mk 7 "t" "e" "S" "sch" none)] 8 [] 0 [] 1)
    0 42 7
    (ClientState.mk 0 [(42, 7)] [(7, 42)] [] []
      [Frame.binary (messageDataFrame 42 100 [104, 105])])
    (messageDataFrame 42 100 [104, 105])
    (by decide) (by decide) (by decide) (by decide)
  refine ⟨by rw [h.1], ?_⟩
  rw [h.1]
  decide

theorem appendFrame_keeps_others (s : ServerState) (cid : Nat) (fr : Frame) :
    ∀ c ∈ s.clients, c.connId ≠ cid → c ∈ (appendFrame s cid fr).clients := by
  intro c hc hne
  have : (if c.connId = cid then { c with outbox := c.outbox ++ [fr] } else c) = c :=
    if_neg hne
  rw [← this]
  exact List.mem_map_of_mem _ hc

theorem appendFrame_findClient_isSome (s : ServerState) (cid : Nat) (fr : Frame) :
    (findClient (appendFrame s cid fr) cid).isSome = (findClient s cid).isSome := by
  show (findClient { s with clients := s.clients.map _ } cid).isSome = _
  rw [findClient_map]
  · cases h : findClient s cid <;> simp [h]
  · intro c
    by_cases hc : c.connId = cid <;> simp [hc]

theorem handleRawInner_exc (L : Option Listener) (s : ServerState) (cid : Nat)
    (raw : RawMessage) (s' : ServerState) (cbs : List Callback) (e : PyExc)
    (hexc : handleRawInner L s cid raw = (s', cbs, some e)) : s' = s ∧ cbs = [] := by
  cases raw with
  | text t =>
      cases t with
      | malformed err =>
          simp only [handleRawInner, Prod.mk.injEq] at hexc
          exact ⟨hexc.1.symm, hexc.2.1.symm⟩
      | nonObject tn =>
          simp only [handleRawInner, Prod.mk.injEq] at hexc
          exact ⟨hexc.1.symm, hexc.2.1.symm⟩
      | obj m =>
          cases m <;>
            simp only [handleRawInner, handle_client_text_message] at hexc
          all_goals repeat' split at hexc
          all_goals simp only [Prod.mk.injEq] at hexc
          all_goals
            first
              | exact ⟨hexc.1.symm, hexc.2.1.symm⟩
              | exact absurd hexc.2.2 (by simp)
  | binary b =>
      simp only [handleRawInner] at hexc
      unfold handle_client_binary_message at hexc
      repeat' split at hexc
      all_goals simp only [Prod.mk.injEq] at hexc
      all_goals
        first
          | exact ⟨hexc.1.symm, hexc.2.1.symm⟩
          | exact absurd hexc.2.2 (by simp)

/-- Claim C7: whenever handling an inbound frame raises an exception, the
server answers that client with an error-level status whose text is the
exception class name, a colon-space, and the exception message; the
connection stays registered and no other session is touched.  Undersized
and unknown-opcode binary frames likewise yield an error status while the
connection remains open. -/
theorem c7_exception_to_status (L : Option Listener) (s : ServerState) (cid : Nat)
    (raw : RawMessage) (s' : ServerState) (cbs : List Callback) (e : PyExc)
    (bytes : List Nat) :
    (handleRawInner L s cid raw = (s', cbs, some e) →
      handle_raw_client_message L s cid raw =
        (appendFrame s cid (Frame.status 2 (e.kind ++ ": " ++ e.msg)), cbs) ∧
      (∀ c ∈ s.clients, c.connId ≠ cid →
        c ∈ (handle_raw_client_message L s cid raw).1.clients) ∧
      ((findClient s cid).isSome = true →
        (findClient (handle_raw_client_message L s cid raw).1 cid).isSome = true)) ∧
    (bytes.length < 5 →
      handle_raw_client_message L s cid (RawMessage.binary bytes) =
        (appendFrame s cid (Frame.status 2
          ("Received invalid binary message of size " ++ toString bytes.length)), [])) ∧
    (¬ bytes.length < 5 → bytes.getD 0 0 ≠ 1 → bytes.getD 0 0 ≠ 2 →
      handle_raw_client_message L s cid (RawMessage.binary bytes) =
        (appendFrame s cid (Frame.status 2
          ("Received binary message with invalid operation " ++ toString (bytes.getD 0 0))), [])) := by
  refine ⟨?_, ?_, ?_⟩
  · intro hexc
    obtain ⟨hs, hcbs⟩ := handleRawInner_exc L s cid raw s' cbs e hexc
    have hmain : handle_raw_client_message L s cid raw =
        (appendFrame s cid (Frame.status 2 (e.kind ++ ": " ++ e.msg)), cbs) := by
      unfold handle_raw_client_message
      rw [hexc, hs]
    refine ⟨hmain, ?_, ?_⟩
    · rw [hmain]
      exact appendFrame_keeps_others s cid _
    · intro hsome
      rw [hmain]
      show (findClient (appendFrame s cid _) cid).isSome = true
      rw [appendFrame_findClient_isSome]
      exact hsome
  · intro h5
    have hinner : handleRawInner L s cid (RawMessage.binary bytes) =
        (appendFrame s cid (Frame.status 2
          ("Received invalid binary message of size " ++ toString bytes.length)), [], none) := by
      show handle_client_binary_message L s cid bytes = _
      unfold handle_client_binary_message
      rw [if_pos h5]
    simp only [handle_raw_client_message, hinner]
  · intro h5 h1 h2
    have hinner : handleRawInner L s cid (RawMessage.binary bytes) =
        (appendFrame s cid (Frame.status 2
          ("Received binary message with invalid operation " ++ toString (bytes.getD 0 0))),
         [], none) := by
      show handle_client_binary_message L s cid bytes = _
      unfold handle_client_binary_message
      rw [if_neg h5, if_neg h1, if_neg h2]
    simp only [handle_raw_client_message, hinner]

/-- Witness for C7: an unknown JSON op, an undersized binary frame, and an
unknown binary opcode at a concrete single-client server. -/
theorem c7_witness :
    handle_raw_client_message (some trivialListener)
      (ServerState.mk "srv" [] none none [ClientState.mk 0 [] [] [] [] []]
        [] 0 [] 0 [] 1) 0
      (RawMessage.text (ParsedText.obj (ClientMessage.unknown "bogus"))) =
      (appendFrame
        (ServerState.mk "srv" [] none none [ClientState.mk 0 [] [] [] [] []]
          [] 0 [] 0 [] 1) 0
        (Frame.status 2 ("ValueError" ++ ": " ++ ("Unrecognized client opcode: " ++ "bogus"))),
       []) ∧
    handle_raw_client_message (some trivialListener)
      (ServerState.mk "srv" [] none none [ClientState.mk 0 [] [] [] [] []]
        [] 0 [] 0 [] 1) 0 (RawMessage.binary [7]) =
      (appendFrame
        (ServerState.mk "srv" [] none none [ClientState.mk 0 [] [] [] [] []]
          [] 0 [] 0 [] 1) 0
        (Frame.status 2 ("Received invalid binary message of size " ++ toString ([7] : List Nat).length)),
       []) ∧
    handle_raw_client_message (some trivialListener)
      (ServerState.mk "srv" [] none none [ClientState.mk 0 [] [] [] [] []]
        [] 0 [] 0 [] 1) 0 (RawMessage.binary [9, 0, 0, 0, 0]) =
      (appendFrame
        (ServerState.mk "srv" [] none none [ClientState.mk 0 [] [] [] [] []]
          [] 0 [] 0 [] 1) 0
        (Frame.status 2 ("Received binary message with invalid operation " ++
          toString (([9, 0, 0, 0, 0] : List Nat).getD 0 0))),
       []) := by
  refine ⟨?_, ?_, ?_⟩
  · exact ((c7_exception_to_status (some trivialListener)
      (ServerState.mk "srv" [] none none [ClientState.mk 0 [] [] [] [] []]
        [] 0 [] 0 [] 1) 0
      (RawMessage.text (ParsedText.obj (ClientMessage.unknown "bogus")))
      (ServerState.mk "srv" [] none none [ClientState.mk 0 [] [] [] [] []]
        [] 0 [] 0 [] 1) []
      (PyExc.mk "ValueError" ("Unrecognized client opcode: " ++ "bogus")) []).1 rfl).1
  · exact (c7_exception_to_status (some trivialListener)
      (ServerState.mk "srv" [] none none [ClientState.mk 0 [] [] [] [] []]
        [] 0 [] 0 [] 1) 0
      (RawMessage.binary [7])
      (ServerState.mk "srv" [] none none [ClientState.mk 0 [] [] [] [] []]
        [] 0 [] 0 [] 1) []
      (PyExc.mk "x" "x") [7]).2.1 (by decide)
  · exact (c7_exception_to_status (some trivialListener)
      (ServerState.mk "srv" [] none none [ClientState.mk 0 [] [] [] [] []]
        [] 0 [] 0 [] 1) 0
      (RawMessage.binary [9, 0, 0, 0, 0])
      (ServerState.mk "srv" [] none none [ClientState.mk 0 [] [] [] [] []]
        [] 0 [] 0 [] 1) []
      (PyExc.mk "x" "x") [9, 0, 0, 0, 0]).2.2 (by decide) (by decide) (by decide)

/-- Claim C1 fails on the code: one client unsubscribes parameter x while
another client still has x in its subscribed_params set, yet
on_parameters_subscribe fires naming x with subscribe=false.  The state
reached after the step still has a session subscribed to x, so x never
transitioned to subscribed-by-no-client. -/
theorem c1_counterexample :
    (step (some trivialListener)
        (run (some trivialListener) (initialState "srv" ["parametersSubscribe"] none none)
          [Event.connect, Event.connect,
           Event.message 0 (RawMessage.text (ParsedText.obj
             (ClientMessage.subscribeParameterUpdates ["x"]))),
           Event.message 1 (RawMessage.text (ParsedText.obj
             (ClientMessage.subscribeParameterUpdates ["x"])))]).1
        (Event.message 0 (RawMessage.text (ParsedText.obj
          (ClientMessage.unsubscribeParameterUpdates ["x"]))))).2 =
      [Callback.onParametersSubscribe ["x"] false] ∧
    ∃ c ∈ (step (some trivialListener)
        (run (some trivialListener) (initialState "srv" ["parametersSubscribe"] none none)
          [Event.connect, Event.connect,
           Event.message 0 (RawMessage.text (ParsedText.obj
             (ClientMessage.subscribeParameterUpdates ["x"]))),
           Event.message 1 (RawMessage.text (ParsedText.obj
             (ClientMessage.subscribeParameterUpdates ["x"])))]).1
        (Event.message 0 (RawMessage.text (ParsedText.obj
          (ClientMessage.unsubscribeParameterUpdates ["x"]))))).1.clients,
      "x" ∈ c.subscribed_params := by decide

/-- Claim C1 (amended): the server-wide threshold is the broker's global
subscribed-parameters set, not the union of the clients' sets.  A
subscribeParameterUpdates message invokes on_parameters_subscribe with
subscribe=true carrying exactly the requested names absent from the global
set (each then enters the set); an unsubscribeParameterUpdates message
invokes it with subscribe=false carrying exactly the requested names present
in the global set (each then leaves the set, even when another client still
holds the name in its own subscribed_params). -/
theorem c1_parameter_subscription_global_set (l : Listener) (s : ServerState)
    (cid : Nat) (names : List String) :
    (handle_client_text_message (some l) s cid
        (ClientMessage.subscribeParameterUpdates names)).2.1 =
      [Callback.onParametersSubscribe
        (names.filter (fun n => decide (n ∉ s.subscribed_params))) true] ∧
    (∀ n, n ∈ names.filter (fun n => decide (n ∉ s.subscribed_params)) ↔
      (n ∈ names ∧ n ∉ s.subscribed_params ∧
       n ∈ (handle_client_text_message (some l) s cid
         (ClientMessage.subscribeParameterUpdates names)).1.subscribed_params)) ∧
    (handle_client_text_message (some l) s cid
        (ClientMessage.unsubscribeParameterUpdates names)).2.1 =
      [Callback.onParametersSubscribe
        (names.filter (fun n => decide (n ∈ s.subscribed_params))) false] ∧
    (∀ n, n ∈ names.filter (fun n => decide (n ∈ s.subscribed_params)) ↔
      (n ∈ names ∧ n ∈ s.subscribed_params ∧
       n ∉ (handle_client_text_message (some l) s cid
         (ClientMessage.unsubscribeParameterUpdates names)).1.subscribed_params)) := by
  refine ⟨by simp [handle_client_text_message], ?_, by simp [handle_client_text_message], ?_⟩
  · intro n
    have hstate : (handle_client_text_message (some l) s cid
        (ClientMessage.subscribeParameterUpdates names)).1.subscribed_params =
        setUpdate s.subscribed_params
          (names.filter (fun n => decide (n ∉ s.subscribed_params))) := rfl
    rw [hstate]
    simp only [List.mem_filter, decide_eq_true_eq, mem_setUpdate]
    constructor
    · intro hn
      exact ⟨hn.1, hn.2, Or.inr ⟨hn.1, hn.2⟩⟩
    · intro hn
      exact ⟨hn.1, hn.2.1⟩
  · intro n
    have hstate : (handle_client_text_message (some l) s cid
        (ClientMessage.unsubscribeParameterUpdates names)).1.subscribed_params =
        setDiff s.subscribed_params
          (names.filter (fun n => decide (n ∈ s.subscribed_params))) := rfl
    rw [hstate]
    simp only [List.mem_filter, decide_eq_true_eq, mem_setDiff]
    constructor
    · intro hn
      refine ⟨hn.1, hn.2, ?_⟩
      intro hmem
      exact hmem.2 ⟨hn.1, hn.2⟩
    · intro hn
      exact ⟨hn.1, hn.2.1⟩

theorem countCallback_nil (t : Callback) : countCallback [] t = 0 := rfl

theorem countCallback_append (a b : List Callback) (t : Callback) :
    countCallback (a ++ b) t = countCallback a t + countCallback b t := by
  simp [countCallback, List.filter_append]

theorem countCallback_single (cb t : Callback) :
    countCallback [cb] t = if cb = t then 1 else 0 := by
  by_cases h : cb = t <;> simp [countCallback, h]

theorem flip_up_add (a b c : Bool) (hab : a = true → b = true) (hbc : b = true → c = true) :
    ((if a = false ∧ b = true then 1 else 0) + (if b = false ∧ c = true then 1 else 0) : Nat) =
      (if a = false ∧ c = true then 1 else 0) := by
  cases a <;> cases b <;> cases c <;> simp_all

theorem flip_down_add (a b c : Bool) (hba : b = true → a = true) (hcb : c = true → b = true) :
    ((if a = true ∧ b = false then 1 else 0) + (if b = true ∧ c = false then 1 else 0) : Nat) =
      (if a = true ∧ c = false then 1 else 0) := by
  cases a <;> cases b <;> cases c <;> simp_all

theorem clients_eq_of_connId {s : ServerState}
    (hnd : (s.clients.map ClientState.connId).Nodup)
    {c₁ c₂ : ClientState} (h₁ : c₁ ∈ s.clients) (h₂ : c₂ ∈ s.clients)
    (h : c₁.connId = c₂.connId) : c₁ = c₂ :=
  List.inj_on_of_nodup_map hnd h₁ h₂ h

theorem mem_replace_self {s : ServerState} {cid : Nat} {cl : ClientState}
    (hfind : findClient s cid = some cl) (cl' : ClientState) :
    cl' ∈ (replaceClient s cid cl').clients := by
  obtain ⟨hmem, hcid⟩ := findClient_eq_some hfind
  have h2 : (fun c => if c.connId = cid then cl' else c) cl ∈
      s.clients.map (fun c => if c.connId = cid then cl' else c) :=
    List.mem_map_of_mem _ hmem
  simpa [replaceClient, hcid] using h2

theorem mem_replace_other {s : ServerState} {cid : Nat} (cl' : ClientState)
    {c : ClientState} (hc : c ∈ s.clients) (hne : c.connId ≠ cid) :
    c ∈ (replaceClient s cid cl').clients := by
  have h2 : (fun x => if x.connId = cid then cl' else x) c ∈
      s.clients.map (fun x => if x.connId = cid then cl' else x) :=
    List.mem_map_of_mem _ hc
  simpa [replaceClient, hne] using h2

theorem any_replace_true_of_lookup {s : ServerState} {cid : Nat} {cl cl' : ClientState}
    {C : Nat} (hfind : findClient s cid = some cl)
    (h : (alookup cl'.subscriptions_by_channel C).isSome = true) :
    any_subscribed (replaceClient s cid cl') C = true :=
  any_subscribed_of_mem (mem_replace_self hfind cl') h

theorem any_replace_le_of_lookup_le {s : ServerState} {cid : Nat} {cl cl' : ClientState}
    {C : Nat} (hfind : findClient s cid = some cl)
    (h : (alookup cl'.subscriptions_by_channel C).isSome = true →
      (alookup cl.subscriptions_by_channel C).isSome = true) :
    any_subscribed (replaceClient s cid cl') C = true → any_subscribed s C = true := by
  intro hany
  obtain ⟨c', hc', hs'⟩ := exists_of_any_subscribed hany
  rcases List.mem_map.1 hc' with ⟨c, hc, hgc⟩
  obtain ⟨hmem, hcid⟩ := findClient_eq_some hfind
  by_cases hcc : c.connId = cid
  · rw [if_pos hcc] at hgc
    subst hgc
    exact any_subscribed_of_mem hmem (h hs')
  · rw [if_neg hcc] at hgc
    subst hgc
    exact any_subscribed_of_mem hc hs'

theorem any_replace_eq_of_lookup_eq {s : ServerState} {cid : Nat} {cl cl' : ClientState}
    {C : Nat} (hnd : (s.clients.map ClientState.connId).Nodup)
    (hfind : findClient s cid = some cl)
    (h : (alookup cl'.subscriptions_by_channel C).isSome =
      (alookup cl.subscriptions_by_channel C).isSome) :
    any_subscribed (replaceClient s cid cl') C = any_subscribed s C := by
  obtain ⟨hmem, hcid⟩ := findClient_eq_some hfind
  cases hb : any_subscribed s C with
  | false =>
      rw [any_subscribed_false_iff] at hb
      rw [any_subscribed_false_iff]
      intro c' hc'
      rcases List.mem_map.1 hc' with ⟨c, hc, hgc⟩
      by_cases hcc : c.connId = cid
      · rw [if_pos hcc] at hgc
        subst hgc
        rw [h]
        exact hb cl hmem
      · rw [if_neg hcc] at hgc
        subst hgc
        exact hb c hc
  | true =>
      obtain ⟨c, hc, hsome⟩ := exists_of_any_subscribed hb
      by_cases hcc : c.connId = cid
      · have hceq : c = cl := clients_eq_of_connId hnd hc hmem (by rw [hcc, hcid])
        subst hceq
        exact any_replace_true_of_lookup hfind (by rw [h]; exact hsome)
      · exact any_subscribed_of_mem (mem_replace_other cl' hc hcc) hsome

theorem any_appendFrame (s : ServerState) (cid : Nat) (fr : Frame) (C : Nat) :
    any_subscribed (appendFrame s cid fr) C = any_subscribed s C := by
  show any_subscribed { s with clients := s.clients.map _ } C = _
  apply any_subscribed_map_same
  intro c
  by_cases hc : c.connId = cid <;> simp [hc]

theorem if_flip_same (a : Bool) : (if a = false ∧ a = true then 1 else 0 : Nat) = 0 := by
  cases a <;> simp

theorem if_flip_same_down (a : Bool) : (if a = true ∧ a = false then 1 else 0 : Nat) = 0 := by
  cases a <;> simp

theorem subEntry_counts (l : Listener) (cid : Nat) (s : ServerState)
    (entry : Nat × Nat) (C : Nat) (hW : WFServer s) :
    countCallback (handleSubscribeEntry (some l) cid s entry).2 (Callback.onSubscribe C) =
      (if any_subscribed s C = false ∧
          any_subscribed (handleSubscribeEntry (some l) cid s entry).1 C = true
       then 1 else 0) ∧
    countCallback (handleSubscribeEntry (some l) cid s entry).2 (Callback.onUnsubscribe C) = 0 ∧
    (any_subscribed s C = true →
      any_subscribed (handleSubscribeEntry (some l) cid s entry).1 C = true) := by
  obtain ⟨subId, chanId⟩ := entry
  cases hfind : findClient s cid with
  | none =>
      simp only [handleSubscribeEntry, hfind]
      exact ⟨by rw [countCallback_nil, if_flip_same], rfl, fun h => h⟩
  | some cl =>
      simp only [handleSubscribeEntry, hfind]
      by_cases hfresh : (alookup cl.subscriptions subId).isSome = true
      · rw [if_pos hfresh]
        refine ⟨?_, ?_, ?_⟩ <;> simp [any_appendFrame, countCallback_nil, if_flip_same]
      rw [if_neg hfresh]
      by_cases hchan : (alookup s.channels chanId).isNone = true
      · rw [if_pos hchan]
        refine ⟨?_, ?_, ?_⟩ <;> simp [any_appendFrame, countCallback_nil, if_flip_same]
      rw [if_neg hchan]
      by_cases hsbc : (alookup cl.subscriptions_by_channel chanId).isSome = true
      · have hadd : cl.add_subscription subId chanId = (false, cl) := by
          unfold ClientState.add_subscription
          rw [if_pos hsbc]
        rw [hadd]
        refine ⟨?_, ?_, ?_⟩ <;> simp [any_appendFrame, countCallback_nil, if_flip_same]
      · have hnone : alookup cl.subscriptions_by_channel chanId = none := by
          cases hx : alookup cl.subscriptions_by_channel chanId with
          | none => rfl
          | some v => rw [hx] at hsbc; simp at hsbc
        have hadd : cl.add_subscription subId chanId =
            (true,
             { cl with
               subscriptions := cl.subscriptions ++ [(subId, chanId)],
               subscriptions_by_channel :=
                 cl.subscriptions_by_channel ++ [(chanId, subId)] }) := by
          unfold ClientState.add_subscription
          rw [if_neg hsbc]
        rw [hadd]
        have hanyNew : any_subscribed (replaceClient s cid
            { cl with
              subscriptions := cl.subscriptions ++ [(subId, chanId)],
              subscriptions_by_channel :=
                cl.subscriptions_by_channel ++ [(chanId, subId)] }) chanId = true := by
          apply any_replace_true_of_lookup hfind
          show (alookup (cl.subscriptions_by_channel ++ [(chanId, subId)]) chanId).isSome = true
          rw [alookup_append_single_self _ _ _ hnone]
          rfl
        by_cases hC : C = chanId
        · subst hC
          cases hb : any_subscribed s C with
          | false =>
              refine ⟨?_, ?_, ?_⟩
              · simp [hb, hanyNew, countCallback_single]
              · simp [hb, countCallback_single]
              · intro h
                exact absurd h (by simp)
          | true =>
              refine ⟨?_, ?_, fun _ => hanyNew⟩
              · simp [hb, countCallback_nil]
              · simp [hb, countCallback_nil]
        · have hlr : (alookup ({ cl with
              subscriptions := cl.subscriptions ++ [(subId, chanId)],
              subscriptions_by_channel :=
                cl.subscriptions_by_channel ++ [(chanId, subId)] } :
                ClientState).subscriptions_by_channel C).isSome =
              (alookup cl.subscriptions_by_channel C).isSome := by
            show (alookup (cl.subscriptions_by_channel ++ [(chanId, subId)]) C).isSome = _
            rw [alookup_append_single_ne _ _ _ _ (fun h => hC h.symm)]
          have heq := any_replace_eq_of_lookup_eq hW.1 hfind hlr
          refine ⟨?_, ?_, ?_⟩
          · rw [heq, if_flip_same]
            by_cases hfs : any_subscribed s chanId = false
            · simp [hfs, countCallback_single, Ne.symm hC]
            · simp only [Bool.not_eq_false] at hfs
              simp [hfs, countCallback_nil]
          · by_cases hfs : any_subscribed s chanId = false
            · simp [hfs, countCallback_single]
            · simp only [Bool.not_eq_false] at hfs
              simp [hfs, countCallback_nil]
          · rw [heq]
            exact fun h => h

theorem countCallback_ite_ne (P : Prop) [Decidable P] (cb t : Callback) (h : cb ≠ t) :
    countCallback (if P then [cb] else []) t = 0 := by
  split <;> simp [countCallback_single, countCallback_nil, h]

theorem unsubEntry_counts (l : Listener) (cid : Nat) (s : ServerState)
    (subId : Nat) (C : Nat) (hW : WFServer s) :
    countCallback (handleUnsubscribeEntry (some l) cid s subId).2 (Callback.onUnsubscribe C) =
      (if any_subscribed s C = true ∧
          any_subscribed (handleUnsubscribeEntry (some l) cid s subId).1 C = false
       then 1 else 0) ∧
    countCallback (handleUnsubscribeEntry (some l) cid s subId).2 (Callback.onSubscribe C) = 0 ∧
    (any_subscribed (handleUnsubscribeEntry (some l) cid s subId).1 C = true →
      any_subscribed s C = true) := by
  cases hfind : findClient s cid with
  | none =>
      simp only [handleUnsubscribeEntry, hfind]
      exact ⟨by rw [countCallback_nil, if_flip_same_down], rfl, fun h => h⟩
  | some cl =>
      simp only [handleUnsubscribeEntry, hfind]
      cases hlook : alookup cl.subscriptions subId with
      | none =>
          simp only [ClientState.remove_subscription, hlook]
          refine ⟨?_, ?_, ?_⟩ <;> simp [any_appendFrame, countCallback_nil, if_flip_same_down]
      | some chanId =>
          simp only [ClientState.remove_subscription, hlook]
          have hwc : WFClient cl := hW.2.2 cl (findClient_eq_some hfind).1
          have hmemp : (subId, chanId) ∈ cl.subscriptions := alookup_eq_some_mem hlook
          have hsbcmem : (chanId, subId) ∈ cl.subscriptions_by_channel :=
            hwc.2.2.1 (subId, chanId) hmemp
          have hanyS : any_subscribed s chanId = true :=
            any_subscribed_of_mem (findClient_eq_some hfind).1 (mem_alookup_isSome hsbcmem)
          by_cases hC : C = chanId
          · subst hC
            cases hb : any_subscribed (replaceClient s cid
                { cl with
                  subscriptions := cl.subscriptions.filter (fun sc => decide (sc.1 ≠ subId)),
                  subscriptions_by_channel :=
                    cl.subscriptions_by_channel.filter (fun cs => decide (cs.1 ≠ C)) }) C with
            | false =>
                refine ⟨?_, ?_, ?_⟩
                · simp [hb, hanyS, countCallback_single]
                · simp [hb, countCallback_single]
                · intro _
                  exact hanyS
            | true =>
                refine ⟨?_, ?_, fun _ => hanyS⟩
                · simp [hb, hanyS, countCallback_nil]
                · simp [hb, countCallback_nil]
          · have hlr : (alookup ({ cl with
                subscriptions := cl.subscriptions.filter (fun sc => decide (sc.1 ≠ subId)),
                subscriptions_by_channel :=
                  cl.subscriptions_by_channel.filter (fun cs => decide (cs.1 ≠ chanId)) } :
                  ClientState).subscriptions_by_channel C).isSome =
                (alookup cl.subscriptions_by_channel C).isSome := by
              show (alookup (cl.subscriptions_by_channel.filter
                (fun cs => decide (cs.1 ≠ chanId))) C).isSome = _
              rw [alookup_filter_ne _ _ _ hC]
            have heq := any_replace_eq_of_lookup_eq hW.1 hfind hlr
            refine ⟨?_, ?_, ?_⟩
            · rw [heq, if_flip_same_down]
              exact countCallback_ite_ne _ _ _ (by simp; omega)
            · exact countCallback_ite_ne _ _ _ (by simp)
            · rw [heq]
              exact fun h => h

theorem wfClient_congr {c c' : ClientState} (h1 : c'.subscriptions = c.subscriptions)
    (h2 : c'.subscriptions_by_channel = c.subscriptions_by_channel) :
    WFClient c → WFClient c' := by
  unfold WFClient
  rw [h1, h2]
  exact id

theorem wf_map {s s' : ServerState} {g : ClientState → ClientState}
    (hcl : s'.clients = s.clients.map g) (hn : s.nextConnId ≤ s'.nextConnId)
    (hid : ∀ c, (g c).connId = c.connId) (hw : ∀ c, WFClient c → WFClient (g c)) :
    WFServer s → WFServer s' := by
  rintro ⟨hnd, hb, hwc⟩
  refine ⟨?_, ?_, ?_⟩
  · rw [hcl, List.map_map]
    have hcomp : (ClientState.connId ∘ g) = ClientState.connId := funext hid
    rw [hcomp]
    exact hnd
  · intro c hc
    rw [hcl] at hc
    rcases List.mem_map.1 hc with ⟨c0, hc0, rfl⟩
    rw [hid]
    exact lt_of_lt_of_le (hb c0 hc0) hn
  · intro c hc
    rw [hcl] at hc
    rcases List.mem_map.1 hc with ⟨c0, hc0, rfl⟩
    exact hw c0 (hwc c0 hc0)

theorem wf_appendFrame (s : ServerState) (cid : Nat) (fr : Frame) :
    WFServer s → WFServer (appendFrame s cid fr) := by
  apply wf_map (g := fun c => if c.connId = cid then { c with outbox := c.outbox ++ [fr] } else c)
  · rfl
  · exact le_refl _
  · intro c
    by_cases hc : c.connId = cid <;> simp [hc]
  · intro c
    by_cases hc : c.connId = cid <;> simp [hc]
    exact wfClient_congr rfl rfl

theorem nodup_keys_filter {α : Type} (l : List (Nat × α)) (p : Nat × α → Bool)
    (h : (l.map Prod.fst).Nodup) : ((l.filter p).map Prod.fst).Nodup :=
  h.sublist ((List.filter_sublist l).map Prod.fst)

theorem wfClient_remove_chan (c : ClientState) (chanId : Nat) :
    WFClient c → WFClient (c.remove_channel chanId) := by
  intro hw
  unfold ClientState.remove_channel
  cases hcase : alookup c.subscriptions_by_channel chanId with
  | none => exact hw
  | some v =>
      refine ⟨nodup_keys_filter _ _ hw.1, nodup_keys_filter _ _ hw.2.1, ?_, ?_⟩
      · intro p hp
        rcases List.mem_filter.1 hp with ⟨hp1, hp2⟩
        exact List.mem_filter.2 ⟨hw.2.2.1 p hp1, hp2⟩
      · intro q hq
        rcases List.mem_filter.1 hq with ⟨hq1, hq2⟩
        refine List.mem_filter.2 ⟨hw.2.2.2 q hq1, ?_⟩
        simpa using hq2

theorem wfClient_add (cl : ClientState) (subId chanId : Nat) (hw : WFClient cl)
    (hfresh : alookup cl.subscriptions subId = none)
    (hchan : alookup cl.subscriptions_by_channel chanId = none) :
    WFClient { cl with
      subscriptions := cl.subscriptions ++ [(subId, chanId)],
      subscriptions_by_channel := cl.subscriptions_by_channel ++ [(chanId, subId)] } := by
  have hf1 : subId ∉ cl.subscriptions.map Prod.fst := (alookup_eq_none_iff _ _).1 hfresh
  have hf2 : chanId ∉ cl.subscriptions_by_channel.map Prod.fst :=
    (alookup_eq_none_iff _ _).1 hchan
  refine ⟨?_, ?_, ?_, ?_⟩
  · rw [List.map_append]
    rw [List.nodup_append]
    refine ⟨hw.1, by simp, ?_⟩
    intro a ha hb
    simp at hb
    subst hb
    exact hf1 ha
  · rw [List.map_append]
    rw [List.nodup_append]
    refine ⟨hw.2.1, by simp, ?_⟩
    intro a ha hb
    simp at hb
    subst hb
    exact hf2 ha
  · intro p hp
    rcases List.mem_append.1 hp with hp | hp
    · exact List.mem_append.2 (Or.inl (hw.2.2.1 p hp))
    · simp at hp
      subst hp
      simp
  · intro q hq
    rcases List.mem_append.1 hq with hq | hq
    · exact List.mem_append.2 (Or.inl (hw.2.2.2 q hq))
    · simp at hq
      subst hq
      simp

theorem wfClient_remove_sub (cl : ClientState) (subId chanId : Nat) (hw : WFClient cl)
    (hlook : alookup cl.subscriptions subId = some chanId) :
    WFClient { cl with
      subscriptions := cl.subscriptions.filter (fun sc => decide (sc.1 ≠ subId)),
      subscriptions_by_channel :=
        cl.subscriptions_by_channel.filter (fun cs => decide (cs.1 ≠ chanId)) } := by
  have hmemp : (subId, chanId) ∈ cl.subscriptions := alookup_eq_some_mem hlook
  have hmemq : (chanId, subId) ∈ cl.subscriptions_by_channel := hw.2.2.1 _ hmemp
  have hkey : ∀ p ∈ cl.subscriptions, (p.1 = subId ↔ p.2 = chanId) := by
    intro p hp
    constructor
    · intro h1
      have := pair_eq_of_nodup_keys hw.1 hp hmemp (by simpa using h1)
      rw [this]
    · intro h2
      have hq1 : (chanId, p.1) ∈ cl.subscriptions_by_channel := by
        have := hw.2.2.1 p hp
        rwa [h2] at this
      have := pair_eq_of_nodup_keys hw.2.1 hq1 hmemq (by simp)
      simpa using congrArg Prod.snd this
  have hkey2 : ∀ q ∈ cl.subscriptions_by_channel, (q.1 = chanId ↔ q.2 = subId) := by
    intro q hq
    constructor
    · intro h1
      have := pair_eq_of_nodup_keys hw.2.1 hq hmemq (by simpa using h1)
      simpa using congrArg Prod.snd this
    · intro h2
      have hp1 : (subId, q.1) ∈ cl.subscriptions := by
        have := hw.2.2.2 q hq
        rwa [h2] at this
      have := pair_eq_of_nodup_keys hw.1 hp1 hmemp (by simp)
      simpa using congrArg Prod.snd this
  refine ⟨nodup_keys_filter _ _ hw.1, nodup_keys_filter _ _ hw.2.1, ?_, ?_⟩
  · intro p hp
    rcases List.mem_filter.1 hp with ⟨hp1, hp2⟩
    refine List.mem_filter.2 ⟨hw.2.2.1 p hp1, ?_⟩
    simp only [decide_eq_true_eq] at hp2 ⊢
    intro hc
    exact hp2 ((hkey p hp1).2 hc)
  · intro q hq
    rcases List.mem_filter.1 hq with ⟨hq1, hq2⟩
    refine List.mem_filter.2 ⟨hw.2.2.2 q hq1, ?_⟩
    simp only [decide_eq_true_eq] at hq2 ⊢
    intro hc
    exact hq2 ((hkey2 q hq1).2 hc)

theorem wf_fields {s s' : ServerState} (hcl : s'.clients = s.clients)
    (hn : s.nextConnId ≤ s'.nextConnId) : WFServer s → WFServer s' := by
  rintro ⟨h1, h2, h3⟩
  refine ⟨by rw [hcl]; exact h1, ?_, ?_⟩
  · intro c hc
    rw [hcl] at hc
    exact lt_of_lt_of_le (h2 c hc) hn
  · intro c hc
    rw [hcl] at hc
    exact h3 c hc

theorem wf_subEntry (L : Option Listener) (cid : Nat) (s : ServerState)
    (entry : Nat × Nat) (hW : WFServer s) :
    WFServer (handleSubscribeEntry L cid s entry).1 := by
  obtain ⟨subId, chanId⟩ := entry
  cases hfind : findClient s cid with
  | none => simpa only [handleSubscribeEntry, hfind] using hW
  | some cl =>
      simp only [handleSubscribeEntry, hfind]
      by_cases hfresh : (alookup cl.subscriptions subId).isSome = true
      · rw [if_pos hfresh]
        exact wf_appendFrame _ _ _ hW
      rw [if_neg hfresh]
      by_cases hchan : (alookup s.channels chanId).isNone = true
      · rw [if_pos hchan]
        exact wf_appendFrame _ _ _ hW
      rw [if_neg hchan]
      by_cases hsbc : (alookup cl.subscriptions_by_channel chanId).isSome = true
      · have hadd : cl.add_subscription subId chanId = (false, cl) := by
          unfold ClientState.add_subscription
          rw [if_pos hsbc]
        rw [hadd]
        exact wf_appendFrame _ _ _ hW
      · have hnone : alookup cl.subscriptions_by_channel chanId = none := by
          cases hx : alookup cl.subscriptions_by_channel chanId with
          | none => rfl
          | some v => rw [hx] at hsbc; simp at hsbc
        have hfreshnone : alookup cl.subscriptions subId = none := by
          cases hx : alookup cl.subscriptions subId with
          | none => rfl
          | some v => rw [hx] at hfresh; simp at hfresh
        have hadd : cl.add_subscription subId chanId =
            (true,
             { cl with
               subscriptions := cl.subscriptions ++ [(subId, chanId)],
               subscriptions_by_channel :=
                 cl.subscriptions_by_channel ++ [(chanId, subId)] }) := by
          unfold ClientState.add_subscription
          rw [if_neg hsbc]
        rw [hadd]
        have hwcl : WFClient cl := hW.2.2 cl (findClient_eq_some hfind).1
        have hcid : cl.connId = cid := (findClient_eq_some hfind).2
        have hwcl2 : WFClient { cl with
            subscriptions := cl.subscriptions ++ [(subId, chanId)],
            subscriptions_by_channel := cl.subscriptions_by_channel ++ [(chanId, subId)] } :=
          wfClient_add cl subId chanId hwcl hfreshnone hnone
        refine wf_map rfl (le_refl _) ?_ ?_ hW
        · intro c
          by_cases hc : c.connId = cid <;> simp [hc, hcid]
        · intro c hc
          by_cases hcc : c.connId = cid
          · rw [if_pos hcc]
            exact hwcl2
          · rw [if_neg hcc]
            exact hc

theorem wf_unsubEntry (L : Option Listener) (cid : Nat) (s : ServerState)
    (subId : Nat) (hW : WFServer s) :
    WFServer (handleUnsubscribeEntry L cid s subId).1 := by
  cases hfind : findClient s cid with
  | none => simpa only [handleUnsubscribeEntry, hfind] using hW
  | some cl =>
      simp only [handleUnsubscribeEntry, hfind]
      cases hlook : alookup cl.subscriptions subId with
      | none =>
          simp only [ClientState.remove_subscription, hlook]
          exact wf_appendFrame _ _ _ hW
      | some chanId =>
          simp only [ClientState.remove_subscription, hlook]
          have hwcl : WFClient cl := hW.2.2 cl (findClient_eq_some hfind).1
          have hcid : cl.connId = cid := (findClient_eq_some hfind).2
          have hwcl2 : WFClient { cl with
              subscriptions := cl.subscriptions.filter (fun sc => decide (sc.1 ≠ subId)),
              subscriptions_by_channel :=
                cl.subscriptions_by_channel.filter (fun cs => decide (cs.1 ≠ chanId)) } :=
            wfClient_remove_sub cl subId chanId hwcl hlook
          refine wf_map rfl (le_refl _) ?_ ?_ hW
          · intro c
            by_cases hc : c.connId = cid <;> simp [hc, hcid]
          · intro c hc
            by_cases hcc : c.connId = cid
            · rw [if_pos hcc]
              exact hwcl2
            · rw [if_neg hcc]
              exact hc

theorem wf_advEntry (L : Option Listener) (cid : Nat) (s : ServerState)
    (channel : ClientChannel) (hW : WFServer s) :
    WFServer (handleClientAdvertiseEntry L cid s channel).1 := by
  cases hfind : findClient s cid with
  | none => simpa only [handleClientAdvertiseEntry, hfind] using hW
  | some cl =>
      simp only [handleClientAdvertiseEntry, hfind]
      have hcid : cl.connId = cid := (findClient_eq_some hfind).2
      by_cases hdup : (alookup cl.advertisements_by_channel channel.id).isSome = true
      · have hadd : cl.add_client_channel channel = (false, cl) := by
          unfold ClientState.add_client_channel
          rw [if_pos hdup]
        rw [hadd]
        exact wf_appendFrame _ _ _ hW
      · have hadd : cl.add_client_channel channel =
            (true, { cl with advertisements_by_channel :=
              cl.advertisements_by_channel ++ [(channel.id, channel)] }) := by
          unfold ClientState.add_client_channel
          rw [if_neg hdup]
        rw [hadd]
        refine wf_map rfl (le_refl _) ?_ ?_ hW
        · intro c
          by_cases hc : c.connId = cid <;> simp [hc, hcid]
        · intro c hc
          by_cases hcc : c.connId = cid
          · rw [if_pos hcc]
            exact wfClient_congr rfl rfl (hW.2.2 cl (findClient_eq_some hfind).1)
          · rw [if_neg hcc]
            exact hc

theorem wf_unadvEntry (L : Option Listener) (cid : Nat) (s : ServerState)
    (channelId : Nat) (hW : WFServer s) :
    WFServer (handleClientUnadvertiseEntry L cid s channelId).1 := by
  cases hfind : findClient s cid with
  | none => simpa only [handleClientUnadvertiseEntry, hfind] using hW
  | some cl =>
      simp only [handleClientUnadvertiseEntry, hfind]
      have hcid : cl.connId = cid := (findClient_eq_some hfind).2
      by_cases hdup : (alookup cl.advertisements_by_channel channelId).isNone = true
      · have hrem : cl.remove_client_channel channelId = (false, cl) := by
          unfold ClientState.remove_client_channel
          rw [if_pos hdup]
        rw [hrem]
        exact wf_appendFrame _ _ _ hW
      · have hrem : cl.remove_client_channel channelId =
            (true, { cl with advertisements_by_channel :=
              cl.advertisements_by_channel.filter (fun p => decide (p.1 ≠ channelId)) }) := by
          unfold ClientState.remove_client_channel
          rw [if_neg hdup]
        rw [hrem]
        refine wf_map rfl (le_refl _) ?_ ?_ hW
        · intro c
          by_cases hc : c.connId = cid <;> simp [hc, hcid]
        · intro c hc
          by_cases hcc : c.connId = cid
          · rw [if_pos hcc]
            exact wfClient_congr rfl rfl (hW.2.2 cl (findClient_eq_some hfind).1)
          · rw [if_neg hcc]
            exact hc

theorem wf_processList {α : Type} (f : ServerState → α → ServerState × List Callback)
    (hf : ∀ s x, WFServer s → WFServer (f s x).1) :
    ∀ (xs : List α) (s : ServerState), WFServer s → WFServer (processList f s xs).1 := by
  intro xs
  induction xs with
  | nil => exact fun s h => h
  | cons x xs ih =>
      intro s h
      simp only [processList]
      exact ih _ (hf s x h)

theorem wf_update_parameters (s : ServerState) (params : List Parameter)
    (hW : WFServer s) : WFServer (s.update_parameters params) := by
  refine wf_map rfl (le_refl _) ?_ ?_ hW
  · intro c
    by_cases hc : (params.filter (fun p => decide (p.name ∈ c.subscribed_params))).length ≠ 0 <;>
      simp [ServerState.update_parameters, hc]
  · intro c hc
    by_cases hlen : (params.filter (fun p => decide (p.name ∈ c.subscribed_params))).length ≠ 0
    · rw [if_pos hlen]
      exact wfClient_congr rfl rfl hc
    · rw [if_neg hlen]
      exact hc

theorem wf_text (L : Option Listener) (s : ServerState) (cid : Nat)
    (m : ClientMessage) (hW : WFServer s) :
    WFServer (handle_client_text_message L s cid m).1 := by
  cases m with
  | subscribe entries =>
      exact wf_processList _ (fun s x => wf_subEntry L cid s x) entries s hW
  | unsubscribe ids =>
      exact wf_processList _ (fun s x => wf_unsubEntry L cid s x) ids s hW
  | advertise channels =>
      exact wf_processList _ (fun s x => wf_advEntry L cid s x) channels s hW
  | unadvertise ids =>
      exact wf_processList _ (fun s x => wf_unadvEntry L cid s x) ids s hW
  | getParameters names rid =>
      cases L with
      | none => exact hW
      | some l =>
          cases hres : l.on_get_parameters names rid with
          | error e => simpa only [handle_client_text_message, hres] using hW
          | ok params =>
              simp only [handle_client_text_message, hres]
              exact wf_appendFrame _ _ _ hW
  | setParameters params rid =>
      cases L with
      | none => exact hW
      | some l =>
          cases hres : l.on_set_parameters params rid with
          | error e => simpa only [handle_client_text_message, hres] using hW
          | ok updated =>
              simp only [handle_client_text_message, hres]
              apply wf_update_parameters
              by_cases hrid : rid.isSome = true
              · rw [if_pos hrid]
                exact wf_appendFrame _ _ _ hW
              · rw [if_neg hrid]
                exact hW
  | subscribeParameterUpdates names =>
      apply wf_fields rfl (le_refl _)
      refine wf_map rfl (le_refl _) ?_ ?_ hW
      · intro c
        by_cases hc : c.connId = cid <;> simp [hc]
      · intro c hc
        by_cases hcc : c.connId = cid
        · rw [if_pos hcc]
          exact wfClient_congr rfl rfl hc
        · rw [if_neg hcc]
          exact hc
  | unsubscribeParameterUpdates names =>
      apply wf_fields rfl (le_refl _)
      refine wf_map rfl (le_refl _) ?_ ?_ hW
      · intro c
        by_cases hc : c.connId = cid <;> simp [hc]
      · intro c hc
        by_cases hcc : c.connId = cid
        · rw [if_pos hcc]
          exact wfClient_congr rfl rfl hc
        · rw [if_neg hcc]
          exact hc
  | unknown op => exact hW

theorem wf_binary (L : Option Listener) (s : ServerState) (cid : Nat)
    (msg : List Nat) (hW : WFServer s) :
    WFServer (handle_client_binary_message L s cid msg).1 := by
  unfold handle_client_binary_message
  repeat' split
  all_goals
    first
      | exact hW
      | exact wf_appendFrame _ _ _ hW

theorem wf_inner (L : Option Listener) (s : ServerState) (cid : Nat)
    (raw : RawMessage) (hW : WFServer s) :
    WFServer (handleRawInner L s cid raw).1 := by
  cases raw with
  | text t =>
      cases t with
      | malformed err => exact hW
      | nonObject tn => exact hW
      | obj m => exact wf_text L s cid m hW
  | binary b => exact wf_binary L s cid b hW

theorem wf_raw (L : Option Listener) (s : ServerState) (cid : Nat)
    (raw : RawMessage) (hW : WFServer s) :
    WFServer (handle_raw_client_message L s cid raw).1 := by
  have hin : WFServer (handleRawInner L s cid raw).1 := wf_inner L s cid raw hW
  rcases hr : handleRawInner L s cid raw with ⟨s1, cbs, exc⟩
  rw [hr] at hin
  cases exc with
  | none =>
      simp only [handle_raw_client_message, hr]
      exact hin
  | some e =>
      simp only [handle_raw_client_message, hr]
      exact wf_appendFrame _ _ _ hin

theorem wf_connect (s : ServerState) (hW : WFServer s) :
    WFServer (handle_connection_init s) := by
  have h1 : WFServer { s with
      clients := s.clients ++ [ClientState.mk s.nextConnId [] [] [] [] []],
      nextConnId := s.nextConnId + 1 } := by
    refine ⟨?_, ?_, ?_⟩
    · show ((s.clients ++ [ClientState.mk s.nextConnId [] [] [] [] []]).map
        ClientState.connId).Nodup
      rw [List.map_append, List.nodup_append]
      refine ⟨hW.1, by simp, ?_⟩
      intro a ha hb
      simp at hb
      rcases List.mem_map.1 ha with ⟨c, hc, rfl⟩
      have := hW.2.1 c hc
      omega
    · intro c hc
      rcases List.mem_append.1 hc with hc | hc
      · have := hW.2.1 c hc
        show c.connId < s.nextConnId + 1
        omega
      · simp at hc
        subst hc
        show s.nextConnId < s.nextConnId + 1
        omega
    · intro c hc
      rcases List.mem_append.1 hc with hc | hc
      · exact hW.2.2 c hc
      · simp at hc
        subst hc
        exact ⟨by simp, by simp, by simp, by simp⟩
  simp only [handle_connection_init]
  split
  · exact wf_appendFrame _ _ _ (wf_appendFrame _ _ _ (wf_appendFrame _ _ _ h1))
  · exact wf_appendFrame _ _ _ (wf_appendFrame _ _ _ h1)

theorem wf_disconnect (L : Option Listener) (s : ServerState) (cid : Nat)
    (hW : WFServer s) : WFServer (handle_disconnect L s cid).1 := by
  cases hfind : findClient s cid with
  | none => simpa only [handle_disconnect, hfind] using hW
  | some cl =>
      simp only [handle_disconnect, hfind]
      refine ⟨?_, ?_, ?_⟩
      · exact hW.1.sublist ((List.filter_sublist s.clients).map ClientState.connId)
      · intro c hc
        exact hW.2.1 c (List.mem_of_mem_filter hc)
      · intro c hc
        exact hW.2.2 c (List.mem_of_mem_filter hc)

theorem remove_chan_connId (c : ClientState) (chanId : Nat) :
    (c.remove_channel chanId).connId = c.connId := by
  unfold ClientState.remove_channel
  cases alookup c.subscriptions_by_channel chanId <;> rfl

theorem wf_step (L : Option Listener) (s : ServerState) (e : Event)
    (hW : WFServer s) : WFServer (step L s e).1 := by
  cases e with
  | connect => exact wf_connect s hW
  | disconnect cid => exact wf_disconnect L s cid hW
  | message cid raw => exact wf_raw L s cid raw hW
  | addChannel spec =>
      refine wf_map rfl (le_refl _) (fun c => rfl) ?_ hW
      intro c hc
      exact wfClient_congr rfl rfl hc
  | removeChannel chanId =>
      show WFServer (s.remove_channel chanId).1
      unfold ServerState.remove_channel
      split
      · exact hW
      · refine wf_map rfl (le_refl _) ?_ ?_ hW
        · intro c
          exact remove_chan_connId c chanId
        · intro c hc
          exact wfClient_congr rfl rfl (wfClient_remove_chan c chanId hc)
  | addService spec =>
      show WFServer (s.add_service spec).1
      unfold ServerState.add_service
      split
      · exact hW
      split
      · exact hW
      · refine wf_map rfl (le_refl _) (fun c => rfl) ?_ hW
        intro c hc
        exact wfClient_congr rfl rfl hc
  | removeService serviceId =>
      show WFServer (s.remove_service serviceId).1
      unfold ServerState.remove_service
      split
      · exact hW
      · refine wf_map rfl (le_refl _) (fun c => rfl) ?_ hW
        intro c hc
        exact wfClient_congr rfl rfl hc
  | updateParams params => exact wf_update_parameters s params hW
  | sendMessage chanId timestamp payload =>
      refine wf_map rfl (le_refl _) ?_ ?_ hW
      · intro c
        show (match alookup c.subscriptions_by_channel chanId with
          | none => c
          | some subId =>
              { c with outbox := c.outbox ++
                  [Frame.binary (messageDataFrame subId timestamp payload)] }).connId = c.connId
        cases alookup c.subscriptions_by_channel chanId <;> rfl
      · intro c hc
        show WFClient (match alookup c.subscriptions_by_channel chanId with
          | none => c
          | some subId =>
              { c with outbox := c.outbox ++
                  [Frame.binary (messageDataFrame subId timestamp payload)] })
        cases alookup c.subscriptions_by_channel chanId with
        | none => exact hc
        | some subId => exact wfClient_congr rfl rfl hc

theorem wf_initial (name : String) (caps : List String)
    (se : Option (List String)) (sid : Option String) :
    WFServer (initialState name caps se sid) := by
  refine ⟨?_, ?_, ?_⟩ <;> simp [initialState]

theorem wf_run (L : Option Listener) (events : List Event) :
    ∀ s : ServerState, WFServer s → WFServer (run L s events).1 := by
  induction events with
  | nil => exact fun s h => h
  | cons e rest ih =>
      intro s h
      simp only [run]
      exact ih _ (wf_step L s e h)

theorem countCallback_cons (a : Callback) (lst : List Callback) (t : Callback) :
    countCallback (a :: lst) t = (if a = t then 1 else 0) + countCallback lst t := by
  by_cases h : a = t
  · simp [countCallback, List.filter_cons, h]
    omega
  · simp [countCallback, List.filter_cons, h]

theorem processSubs_counts (l : Listener) (cid : Nat) (C : Nat) :
    ∀ (entries : List (Nat × Nat)) (s : ServerState), WFServer s →
    countCallback (processList (handleSubscribeEntry (some l) cid) s entries).2
        (Callback.onSubscribe C) =
      (if any_subscribed s C = false ∧
          any_subscribed (processList (handleSubscribeEntry (some l) cid) s entries).1 C = true
       then 1 else 0) ∧
    countCallback (processList (handleSubscribeEntry (some l) cid) s entries).2
        (Callback.onUnsubscribe C) = 0 ∧
    (any_subscribed s C = true →
      any_subscribed (processList (handleSubscribeEntry (some l) cid) s entries).1 C = true) := by
  intro entries
  induction entries with
  | nil =>
      intro s _
      simp only [processList]
      exact ⟨by rw [countCallback_nil, if_flip_same], rfl, fun h => h⟩
  | cons e rest ih =>
      intro s hW
      have h1 := subEntry_counts l cid s e C hW
      have hW1 := wf_subEntry (some l) cid s e hW
      have h2 := ih (handleSubscribeEntry (some l) cid s e).1 hW1
      simp only [processList]
      refine ⟨?_, ?_, ?_⟩
      · rw [countCallback_append, h1.1, h2.1]
        exact flip_up_add _ _ _ h1.2.2 h2.2.2
      · rw [countCallback_append, h1.2.1, h2.2.1]
      · exact fun h => h2.2.2 (h1.2.2 h)

theorem processUnsubs_counts (l : Listener) (cid : Nat) (C : Nat) :
    ∀ (ids : List Nat) (s : ServerState), WFServer s →
    countCallback (processList (handleUnsubscribeEntry (some l) cid) s ids).2
        (Callback.onUnsubscribe C) =
      (if any_subscribed s C = true ∧
          any_subscribed (processList (handleUnsubscribeEntry (some l) cid) s ids).1 C = false
       then 1 else 0) ∧
    countCallback (processList (handleUnsubscribeEntry (some l) cid) s ids).2
        (Callback.onSubscribe C) = 0 ∧
    (any_subscribed (processList (handleUnsubscribeEntry (some l) cid) s ids).1 C = true →
      any_subscribed s C = true) := by
  intro ids
  induction ids with
  | nil =>
      intro s _
      simp only [processList]
      exact ⟨by rw [countCallback_nil, if_flip_same_down], rfl, fun h => h⟩
  | cons i rest ih =>
      intro s hW
      have h1 := unsubEntry_counts l cid s i C hW
      have hW1 := wf_unsubEntry (some l) cid s i hW
      have h2 := ih (handleUnsubscribeEntry (some l) cid s i).1 hW1
      simp only [processList]
      refine ⟨?_, ?_, ?_⟩
      · rw [countCallback_append, h1.1, h2.1]
        exact flip_down_add _ _ _ h1.2.2 h2.2.2
      · rw [countCallback_append, h1.2.1, h2.2.1]
      · exact fun h => h1.2.2 (h2.2.2 h)

theorem count_unsub_filterMap (s' : ServerState) (C : Nat) :
    ∀ (keys : List Nat), keys.Nodup →
    countCallback (keys.filterMap (fun ch =>
        if any_subscribed s' ch then none else some (Callback.onUnsubscribe ch)))
      (Callback.onUnsubscribe C) =
      (if C ∈ keys ∧ any_subscribed s' C = false then 1 else 0) := by
  intro keys
  induction keys with
  | nil => intro _; simp [countCallback_nil]
  | cons k ks ih =>
      intro hnd
      rw [List.filterMap_cons]
      by_cases hk : any_subscribed s' k = true
      · rw [if_pos hk, ih hnd.of_cons]
        by_cases hCk : C = k
        · subst hCk
          have hnotin : C ∉ ks := by
            have := hnd
            rw [List.nodup_cons] at this
            exact this.1
          simp [hnotin, hk]
        · simp [hCk]
      · have hkf : any_subscribed s' k = false := by
          cases hx : any_subscribed s' k
          · rfl
          · exact absurd hx hk
        rw [if_neg hk, countCallback_cons, ih hnd.of_cons]
        by_cases hCk : C = k
        · subst hCk
          have hnotin : C ∉ ks := by
            have := hnd
            rw [List.nodup_cons] at this
            exact this.1
          simp [hnotin, hkf]
        · have hne : Callback.onUnsubscribe k ≠ Callback.onUnsubscribe C := by
            simp
            omega
          simp [hne, hCk]

theorem count_sub_filterMap_zero (s' : ServerState) (C : Nat) :
    ∀ (keys : List Nat),
    countCallback (keys.filterMap (fun ch =>
        if any_subscribed s' ch then none else some (Callback.onUnsubscribe ch)))
      (Callback.onSubscribe C) = 0 := by
  intro keys
  induction keys with
  | nil => simp [countCallback_nil]
  | cons k ks ih =>
      rw [List.filterMap_cons]
      by_cases hk : any_subscribed s' k = true
      · rw [if_pos hk]
        exact ih
      · rw [if_neg hk, countCallback_cons]
        simp [ih]

theorem any_filter_split {s : ServerState} {cid : Nat} {cl : ClientState}
    (hnd : (s.clients.map ClientState.connId).Nodup)
    (hfind : findClient s cid = some cl) (C : Nat) :
    any_subscribed s C =
      ((alookup cl.subscriptions_by_channel C).isSome ||
       any_subscribed
         { s with clients := s.clients.filter (fun c => decide (c.connId ≠ cid)) } C) := by
  obtain ⟨hmem, hcid⟩ := findClient_eq_some hfind
  cases hb : any_subscribed s C with
  | true =>
      obtain ⟨c, hc, hsome⟩ := exists_of_any_subscribed hb
      by_cases hcc : c.connId = cid
      · have hceq : c = cl := clients_eq_of_connId hnd hc hmem (by rw [hcc, hcid])
        subst hceq
        rw [hsome]
        simp
      · have hcmem : c ∈ s.clients.filter (fun c => decide (c.connId ≠ cid)) :=
          List.mem_filter.2 ⟨hc, by simp [hcc]⟩
        have h2 : any_subscribed
            { s with clients := s.clients.filter (fun c => decide (c.connId ≠ cid)) } C =
            true := any_subscribed_of_mem hcmem hsome
        rw [h2]
        simp
  | false =>
      have hall := (any_subscribed_false_iff s C).1 hb
      have h1 : (alookup cl.subscriptions_by_channel C).isSome = false := hall cl hmem
      have h2 : any_subscribed
          { s with clients := s.clients.filter (fun c => decide (c.connId ≠ cid)) } C =
          false := by
        rw [any_subscribed_false_iff]
        intro c hc
        exact hall c (List.mem_of_mem_filter hc)
      rw [h1, h2]
      rfl

theorem disconnect_counts (l : Listener) (s : ServerState) (cid : Nat) (C : Nat)
    (hW : WFServer s) :
    countCallback (handle_disconnect (some l) s cid).2 (Callback.onUnsubscribe C) =
      (if any_subscribed s C = true ∧
          any_subscribed (handle_disconnect (some l) s cid).1 C = false
       then 1 else 0) ∧
    countCallback (handle_disconnect (some l) s cid).2 (Callback.onSubscribe C) = 0 := by
  cases hfind : findClient s cid with
  | none =>
      simp only [handle_disconnect, hfind]
      exact ⟨by rw [countCallback_nil, if_flip_same_down], rfl⟩
  | some cl =>
      simp only [handle_disconnect, hfind, Option.isSome_some]
      rw [if_pos trivial]
      have hwcl : WFClient cl := hW.2.2 cl (findClient_eq_some hfind).1
      have hsplit := any_filter_split hW.1 hfind C
      constructor
      · rw [count_unsub_filterMap _ _ _ hwcl.2.1, hsplit]
        have hmemiff : (C ∈ cl.subscriptions_by_channel.map Prod.fst) ↔
            (alookup cl.subscriptions_by_channel C).isSome = true :=
          (alookup_isSome_iff _ _).symm
        cases hl : (alookup cl.subscriptions_by_channel C).isSome <;>
          cases ha : any_subscribed
            { s with clients := s.clients.filter (fun c => decide (c.connId ≠ cid)) } C <;>
          simp [hmemiff, hl, ha]
      · exact count_sub_filterMap_zero _ _ _

theorem step_subscribe_eq (l : Listener) (s : ServerState) (cid : Nat)
    (entries : List (Nat × Nat)) :
    step (some l) s (Event.message cid (RawMessage.text (ParsedText.obj
        (ClientMessage.subscribe entries)))) =
      processList (handleSubscribeEntry (some l) cid) s entries := by
  rcases hr : processList (handleSubscribeEntry (some l) cid) s entries with ⟨s1, cbs⟩
  simp only [step]
  simp only [handle_raw_client_message, handleRawInner, handle_client_text_message, hr]

theorem step_unsubscribe_eq (l : Listener) (s : ServerState) (cid : Nat)
    (ids : List Nat) :
    step (some l) s (Event.message cid (RawMessage.text (ParsedText.obj
        (ClientMessage.unsubscribe ids)))) =
      processList (handleUnsubscribeEntry (some l) cid) s ids := by
  rcases hr : processList (handleUnsubscribeEntry (some l) cid) s ids with ⟨s1, cbs⟩
  simp only [step]
  simp only [handle_raw_client_message, handleRawInner, handle_client_text_message, hr]

/-- Claim C2: at every broker state reachable by any event trace from a fresh
server with a listener set, a client subscribe message fires on_subscribe(C)
exactly once when the aggregate subscriber count of C transitions from zero
to positive and never otherwise (and never fires on_unsubscribe); a client
unsubscribe message fires on_unsubscribe(C) exactly once when the count
transitions from positive to zero and never otherwise (and never fires
on_subscribe); a disconnect behaves like the unsubscribe case for each of
the session's channels. -/
theorem c2_subscription_edge_exactly_once (nm : String) (caps : List String)
    (se : Option (List String)) (sid : Option String) (l : Listener)
    (events : List Event) (C : Nat) :
    (∀ (cid : Nat) (entries : List (Nat × Nat)),
      countCallback
          (step (some l) (run (some l) (initialState nm caps se sid) events).1
            (Event.message cid (RawMessage.text (ParsedText.obj
              (ClientMessage.subscribe entries))))).2
          (Callback.onSubscribe C) =
        (if any_subscribed (run (some l) (initialState nm caps se sid) events).1 C = false ∧
            any_subscribed
              (step (some l) (run (some l) (initialState nm caps se sid) events).1
                (Event.message cid (RawMessage.text (ParsedText.obj
                  (ClientMessage.subscribe entries))))).1 C = true
         then 1 else 0) ∧
      countCallback
          (step (some l) (run (some l) (initialState nm caps se sid) events).1
            (Event.message cid (RawMessage.text (ParsedText.obj
              (ClientMessage.subscribe entries))))).2
          (Callback.onUnsubscribe C) = 0) ∧
    (∀ (cid : Nat) (ids : List Nat),
      countCallback
          (step (some l) (run (some l) (initialState nm caps se sid) events).1
            (Event.message cid (RawMessage.text (ParsedText.obj
              (ClientMessage.unsubscribe ids))))).2
          (Callback.onUnsubscribe C) =
        (if any_subscribed (run (some l) (initialState nm caps se sid) events).1 C = true ∧
            any_subscribed
              (step (some l) (run (some l) (initialState nm caps se sid) events).1
                (Event.message cid (RawMessage.text (ParsedText.obj
                  (ClientMessage.unsubscribe ids))))).1 C = false
         then 1 else 0) ∧
      countCallback
          (step (some l) (run (some l) (initialState nm caps se sid) events).1
            (Event.message cid (RawMessage.text (ParsedText.obj
              (ClientMessage.unsubscribe ids))))).2
          (Callback.onSubscribe C) = 0) ∧
    (∀ (cid : Nat),
      countCallback
          (step (some l) (run (some l) (initialState nm caps se sid) events).1
            (Event.disconnect cid)).2 (Callback.onUnsubscribe C) =
        (if any_subscribed (run (some l) (initialState nm caps se sid) events).1 C = true ∧
            any_subscribed
              (step (some l) (run (some l) (initialState nm caps se sid) events).1
                (Event.disconnect cid)).1 C = false
         then 1 else 0) ∧
      countCallback
          (step (some l) (run (some l) (initialState nm caps se sid) events).1
            (Event.disconnect cid)).2 (Callback.onSubscribe C) = 0) := by
  have hW : WFServer (run (some l) (initialState nm caps se sid) events).1 :=
    wf_run (some l) events _ (wf_initial nm caps se sid)
  refine ⟨?_, ?_, ?_⟩
  · intro cid entries
    rw [step_subscribe_eq]
    have h := processSubs_counts l cid C entries
      (run (some l) (initialState nm caps se sid) events).1 hW
    exact ⟨h.1, h.2.1⟩
  · intro cid ids
    rw [step_unsubscribe_eq]
    have h := processUnsubs_counts l cid C ids
      (run (some l) (initialState nm caps se sid) events).1 hW
    exact ⟨h.1, h.2.1⟩
  · intro cid
    have h := disconnect_counts l
      (run (some l) (initialState nm caps se sid) events).1 cid C hW
    exact h

end FoxgloveWS
